import Mathlib

/-!
Shallow embedding of the dw-mmc SDIO driver (src/lib.rs, src/ops.rs).

The controller's memory-mapped registers are modelled by an environment
function from (read counter, register offset) to the 32-bit value the
hardware returns for that read; writes have no influence on later reads
(the environment is free to behave adversarially), and every register
access is recorded in an event trace, newest event first.  Busy-wait
loops that the source bounds with a millisecond countdown are modelled
with an explicit fuel argument counting the remaining predicate polls;
fuel exhaustion takes exactly the countdown-expired branch of the
source.  The two source loops that have no countdown at all
(the op-condition busy poll in check_v18_sdhc and the reissue loop in
stop_transmission_ops) are modelled by their n-th iterate, returning
none while the loop has not yet exited after n iterations.
Pure spin delays (Delay::spin_micros / spin_millis) have no observable
effect in this model and are omitted.

The modules cmd.rs, reg.rs, sd_reg.rs and err.rs of this repository are
referenced by src/lib.rs and src/ops.rs but are not present under src/;
the definitions below whose doc comments start with
`Modelled from the spec:` reconstruct those missing parts from the
specification text.
-/

namespace Sdio

/-- One hardware access: a register read (offset, value returned by the
controller) or a register write (offset, value written). -/
inductive Ev where
  | read : Nat → Nat → Ev
  | write : Nat → Nat → Ev
deriving DecidableEq, Repr

/-- Machine state of a run: the number of register reads performed so
far (the clock of the environment) and the trace of accesses, newest
event first. -/
structure St where
  rc : Nat
  ev : List Ev
deriving DecidableEq, Repr

/-- Controller behaviour: the value returned by a read, as a function of
how many reads happened before it and of the register offset read. -/
abbrev Env := Nat → Nat → Nat

/-- read_reg of the tom_device crate: query the environment and record
the read. -/
def rd (env : Env) (off : Nat) (s : St) : Nat × St :=
  (env s.rc off, ⟨s.rc + 1, Ev.read off (env s.rc off) :: s.ev⟩)

/-- write_reg of the tom_device crate: record the write. -/
def wr (off v : Nat) (s : St) : St :=
  ⟨s.rc, Ev.write off v :: s.ev⟩

/-! ### Register offsets

Modelled from the spec: reg.rs is absent from src/; §6 of the spec lists
the register map (Control, Power-Enable, Clock-Enable, Clock-Divider,
Command, Command-Argument, Raw-Interrupt-Status, Interrupt-Mask, Status,
Card-Type, Block-Size, Byte-Count, Data-FIFO, Response0..3, Timeout,
DMA-Interrupt-Enable, Bus-Mode, Hardware-Configuration) and says the
offsets are controller-specific; the standard DesignWare offsets are
used.  Only distinctness of the offsets matters to the claims. -/

/-- Modelled from the spec: control register offset (reg.rs missing). -/
def REG_CTRL : Nat := 0x00
/-- Modelled from the spec: power enable register offset (reg.rs missing). -/
def REG_PWREN : Nat := 0x04
/-- Modelled from the spec: clock divider register offset (reg.rs missing). -/
def REG_CLKDIV : Nat := 0x08
/-- Modelled from the spec: clock enable register offset (reg.rs missing). -/
def REG_CLKENA : Nat := 0x10
/-- Modelled from the spec: timeout register offset (reg.rs missing). -/
def REG_TMOUT : Nat := 0x14
/-- Modelled from the spec: card type register offset (reg.rs missing). -/
def REG_CTYPE : Nat := 0x18
/-- Modelled from the spec: block size register offset (reg.rs missing). -/
def REG_BLKSIZ : Nat := 0x1C
/-- Modelled from the spec: byte count register offset (reg.rs missing). -/
def REG_BYTCNT : Nat := 0x20
/-- Modelled from the spec: interrupt mask register offset (reg.rs missing). -/
def REG_INTMASK : Nat := 0x24
/-- Modelled from the spec: command argument register offset (reg.rs missing). -/
def REG_CMDARG : Nat := 0x28
/-- Modelled from the spec: command register offset (reg.rs missing). -/
def REG_CMD : Nat := 0x2C
/-- Modelled from the spec: response register 0 offset (reg.rs missing). -/
def REG_RESP0 : Nat := 0x30
/-- Modelled from the spec: response register 1 offset (reg.rs missing). -/
def REG_RESP1 : Nat := 0x34
/-- Modelled from the spec: response register 2 offset (reg.rs missing). -/
def REG_RESP2 : Nat := 0x38
/-- Modelled from the spec: response register 3 offset (reg.rs missing). -/
def REG_RESP3 : Nat := 0x3C
/-- Modelled from the spec: raw interrupt status register offset (reg.rs missing). -/
def REG_RINTSTS : Nat := 0x44
/-- Modelled from the spec: status register offset (reg.rs missing). -/
def REG_STATUS : Nat := 0x48
/-- Modelled from the spec: hardware configuration register offset (reg.rs missing). -/
def REG_HCON : Nat := 0x70
/-- Modelled from the spec: bus mode register offset (reg.rs missing). -/
def REG_BMOD : Nat := 0x80
/-- Modelled from the spec: dma interrupt enable register offset (reg.rs missing). -/
def REG_IDINTEN : Nat := 0x90
/-- Modelled from the spec: data FIFO window offset (reg.rs missing);
ops.rs reads and writes bytes at REG_DATA + offset. -/
def REG_DATA : Nat := 0x200

/-! ### Bit masks

Modelled from the spec: reg.rs (bitflags InterruptMask, CmdMask,
StatusMask, ControlMask) is absent from src/; the standard DesignWare
bit positions are used for the named bits ops.rs and lib.rs touch. -/

namespace InterruptMask

/-- Modelled from the spec: command-done raw interrupt bit (reg.rs missing). -/
def cmd : Nat := 0x4
/-- Modelled from the spec: data-transfer-over raw interrupt bit (reg.rs missing). -/
def dto : Nat := 0x8
/-- Modelled from the spec: transmit FIFO data request bit (reg.rs missing). -/
def txdr : Nat := 0x10
/-- Modelled from the spec: receive FIFO data request bit (reg.rs missing). -/
def rxdr : Nat := 0x20
/-- Modelled from the spec: response error bit (reg.rs missing). -/
def re : Nat := 0x2
/-- Modelled from the spec: response CRC error bit (reg.rs missing). -/
def rcrc : Nat := 0x40
/-- Modelled from the spec: response timeout bit (reg.rs missing). -/
def rto : Nat := 0x100
/-- Modelled from the spec: hardware locked error bit (reg.rs missing). -/
def hle : Nat := 0x1000
/-- Modelled from the spec: union of all raw interrupt bits, the value
written to clear every pending bit (reg.rs missing). -/
def all : Nat := 0xFFFF

end InterruptMask

namespace CmdMask

/-- Modelled from the spec: start_cmd bit of the command register
(reg.rs missing). -/
def start_cmd : Nat := 0x80000000

end CmdMask

namespace StatusMask

/-- Modelled from the spec: data_busy bit of the status register
(reg.rs missing). -/
def data_busy : Nat := 0x200

end StatusMask

namespace ControlMask

/-- Modelled from the spec: controller reset bit of the control register
(reg.rs missing). -/
def controller_reset : Nat := 0x1
/-- Modelled from the spec: FIFO reset bit of the control register
(reg.rs missing). -/
def fifo_reset : Nat := 0x2
/-- Modelled from the spec: DMA reset bit of the control register
(reg.rs missing). -/
def dma_reset : Nat := 0x4

end ControlMask

/-! ### Error types (err.rs is absent from src/) -/

/-- Modelled from the spec: the four Timeout kinds of §7 — waiting for
command line, data line, command completion, or controller reset
(err.rs missing). -/
inductive Timeout where
  | waitCmdLine
  | waitDataLine
  | waitCmdDone
  | waitReset
deriving DecidableEq, Repr

/-- Modelled from the spec: interrupt-derived error kinds of §7 —
response timeout, response error, response CRC error and the generic
set of data-phase fault bits surfaced uniformly (err.rs missing). -/
inductive Interrupt where
  | responseTimeout
  | responseErr
  | responseCrc
  | fault : Nat → Interrupt
deriving DecidableEq, Repr

/-- Modelled from the spec: CardError gathers the timeout kinds, the
interrupt-derived kinds and the protocol-semantic kinds (unexpected
voltage pattern, data transfer timeout) of §7 (err.rs missing). -/
inductive CardError where
  | timeout : Timeout → CardError
  | interrupt : Interrupt → CardError
  | dataTransferTimeout
  | voltagePattern
deriving DecidableEq, Repr

/-- Modelled from the spec: the union of interrupt status bits the
shared interrupt classifier treats as faults — the response fault bits
and the data-phase fault bits (data CRC, data read timeout, host
timeout, FIFO underrun/overrun, hardware locked, start bit, end bit);
the command-done, transfer-complete and FIFO-request bits are not
faults (err.rs missing). -/
def faultMask : Nat := 0x2 ||| 0x40 ||| 0x80 ||| 0x100 ||| 0x200 ||| 0x400 ||| 0x800 ||| 0x1000 ||| 0x2000 ||| 0x8000

/-- Modelled from the spec: Interrupt::check, the shared interrupt
classifier used by the transfer loops — propagate a CardError if any
fault bit is set in the given raw status word (err.rs missing). -/
def Interrupt.check (m : Nat) : Except CardError Unit :=
  if m &&& faultMask ≠ 0 then .error (.interrupt (.fault (m &&& faultMask))) else .ok ()

/-- Modelled from the spec: the DeviceError surface of the external
tom_device crate at the block-device boundary; §7 says the recovery's
own failure is itself propagated rather than ignored, so the conversion
from CardError is kept distinct from the generic I/O kind. -/
inductive DeviceError where
  | ioError
  | card : CardError → DeviceError
deriving DecidableEq, Repr

/-! ### Responses and card register codecs (sd_reg.rs is absent from src/) -/

/-- Response variants of the command transport: no response, 48-bit
response word, 136-bit response assembled from the four response
registers. -/
inductive Response where
  | Rz
  | R48 : Nat → Response
  | R136 : Nat × Nat × Nat × Nat → Response
deriving DecidableEq, Repr

/-- First response word of a response, 0 when absent. -/
def Response.word0 : Response → Nat
  | .Rz => 0
  | .R48 v => v
  | .R136 t => t.1

/-- Modelled from the spec: interface-condition check response view
(sd_reg.rs missing) — voltage-accepted plus echoed check pattern. -/
structure Cic where
  raw : Nat
deriving DecidableEq, Repr

/-- Modelled from the spec: voltage-accepted field of the CIC
(sd_reg.rs missing). -/
def Cic.voltage_accepted (c : Cic) : Nat := (c.raw >>> 8) &&& 0xF

/-- Modelled from the spec: echoed check pattern field of the CIC
(sd_reg.rs missing). -/
def Cic.pattern (c : Cic) : Nat := c.raw &&& 0xFF

/-- Modelled from the spec: Cic::new of the fresh handle (sd_reg.rs missing). -/
def Cic.new : Cic := ⟨0⟩

/-- Modelled from the spec: operation conditions register view
(sd_reg.rs missing) — busy/ready, high-capacity, voltage-switch. -/
structure Ocr where
  raw : Nat
deriving DecidableEq, Repr

/-- Modelled from the spec: busy field of the OCR — the card is still
busy while the power-up-done bit 31 is clear (sd_reg.rs missing). -/
def Ocr.is_busy (o : Ocr) : Bool := (o.raw >>> 31) &&& 1 == 0

/-- Modelled from the spec: high-capacity field of the OCR (sd_reg.rs missing). -/
def Ocr.high_capacity (o : Ocr) : Bool := (o.raw >>> 30) &&& 1 == 1

/-- Modelled from the spec: 1.8-volt-allowed field of the OCR (sd_reg.rs missing). -/
def Ocr.v18_allowed (o : Ocr) : Bool := (o.raw >>> 24) &&& 1 == 1

/-- Modelled from the spec: Ocr::new of the fresh handle (sd_reg.rs missing). -/
def Ocr.new : Ocr := ⟨0⟩

/-- Modelled from the spec: relative card address view (sd_reg.rs
missing) — 16-bit session address in the upper half of the word. -/
structure Rca where
  raw : Nat
deriving DecidableEq, Repr

/-- Modelled from the spec: 16-bit address field of the RCA (sd_reg.rs missing). -/
def Rca.address (r : Rca) : Nat := r.raw >>> 16

/-- Modelled from the spec: Rca::new of the fresh handle (sd_reg.rs missing). -/
def Rca.new : Rca := ⟨0⟩

/-- Modelled from the spec: 128-bit card identification view over the
four response words (sd_reg.rs missing). -/
structure Cid where
  raw : Nat × Nat × Nat × Nat
deriving DecidableEq, Repr

/-- Modelled from the spec: Cid::new of the fresh handle (sd_reg.rs missing). -/
def Cid.new : Cid := ⟨(0, 0, 0, 0)⟩

/-- Modelled from the spec: 128-bit card-specific data view over the
four response words (sd_reg.rs missing). -/
structure Csd where
  raw : Nat × Nat × Nat × Nat
deriving DecidableEq, Repr

/-- Modelled from the spec: Csd::new of the fresh handle (sd_reg.rs missing). -/
def Csd.new : Csd := ⟨(0, 0, 0, 0)⟩

/-- Modelled from the spec: standard card-status word view (sd_reg.rs
missing); decoded only for diagnostics in the source. -/
structure CardStatus where
  raw : Nat
deriving DecidableEq, Repr

/-- Modelled from the spec: Response::cic decode (sd_reg.rs missing). -/
def Response.cic (r : Response) : Cic := ⟨r.word0⟩

/-- Modelled from the spec: Response::ocr decode (sd_reg.rs missing). -/
def Response.ocr (r : Response) : Ocr := ⟨r.word0⟩

/-- Modelled from the spec: Response::rca decode (sd_reg.rs missing). -/
def Response.rca (r : Response) : Rca := ⟨r.word0⟩

/-- Modelled from the spec: Response::card_status decode (sd_reg.rs missing). -/
def Response.card_status (r : Response) : CardStatus := ⟨r.word0⟩

/-- Modelled from the spec: Response::cid decode over the four response
words (sd_reg.rs missing). -/
def Response.cid : Response → Cid
  | .R136 t => ⟨t⟩
  | .R48 v => ⟨(v, 0, 0, 0)⟩
  | .Rz => ⟨(0, 0, 0, 0)⟩

/-- Modelled from the spec: Response::csd decode over the four response
words (sd_reg.rs missing). -/
def Response.csd : Response → Csd
  | .R136 t => ⟨t⟩
  | .R48 v => ⟨(v, 0, 0, 0)⟩
  | .Rz => ⟨(0, 0, 0, 0)⟩

/-! ### Commands (cmd.rs is absent from src/) -/

/-- Command value of the transport: index, 32-bit argument, and the
three flags that govern the transport's wait strategy — response
expected, long (136-bit) response, data phase follows.  The field and
accessor names follow ops.rs (arg, to_cmd, resp_exp, resp_lang,
data_exp). -/
structure Command where
  index : Nat
  arg : Nat
  resp_exp : Bool
  resp_lang : Bool
  data_exp : Bool
deriving DecidableEq, Repr

/-- Modelled from the spec: Command::to_cmd, the controller command-word
encoding of cmd.rs (missing); start bit plus index plus flag bits.
Only the fact that the written word is a function of the command
matters to the claims — the environment, not the written word, decides
what later reads of the command register return. -/
def Command.to_cmd (c : Command) : Nat :=
  CmdMask.start_cmd ||| c.index ||| (if c.resp_exp then 0x40 else 0) |||
    (if c.resp_lang then 0x80 else 0) ||| (if c.data_exp then 0x200 else 0)

/-- Modelled from the spec: go-idle command, no response, no data
(cmd.rs missing). -/
def idle : Command := ⟨0, 0, false, false, false⟩

/-- Modelled from the spec: send-interface-condition command, short
response, no data (cmd.rs missing). -/
def send_if_cond (vhs pattern : Nat) : Command :=
  ⟨8, (vhs <<< 8) ||| pattern, true, false, false⟩

/-- Modelled from the spec: app-command prefix, short response, no data
(cmd.rs missing). -/
def app_cmd (a : Nat) : Command := ⟨55, a, true, false, false⟩

/-- Modelled from the spec: send-op-condition application command with
high-capacity and voltage-switch request flags, short response, no
data (cmd.rs missing). -/
def sd_send_op_cond (hc v18 : Bool) : Command :=
  ⟨41, (if hc then 1 <<< 30 else 0) ||| (if v18 then 1 <<< 24 else 0) ||| 0xFF8000,
    true, false, false⟩

/-- Modelled from the spec: all-send-CID command, long response, no data
(cmd.rs missing). -/
def all_send_cid : Command := ⟨2, 0, true, true, false⟩

/-- Modelled from the spec: send-relative-address command, short
response, no data (cmd.rs missing). -/
def send_relative_address : Command := ⟨3, 0, true, false, false⟩

/-- Modelled from the spec: send-CSD command, long response, no data
(cmd.rs missing). -/
def send_csd (a : Nat) : Command := ⟨9, a, true, true, false⟩

/-- Modelled from the spec: select-card command, short response, no data
(cmd.rs missing). -/
def select_card (a : Nat) : Command := ⟨7, a, true, false, false⟩

/-- Modelled from the spec: switch-function command, short response, no
data phase in this driver (cmd.rs missing). -/
def switch_function (a : Nat) : Command := ⟨6, a, true, false, false⟩

/-- Modelled from the spec: set-bus-width application command, short
response, no data (cmd.rs missing). -/
def set_bus_width (w : Nat) : Command := ⟨6, w, true, false, false⟩

/-- Modelled from the spec: read-single-block command, short response,
data phase follows (cmd.rs missing). -/
def read_single_block (lba : Nat) : Command := ⟨17, lba, true, false, true⟩

/-- Modelled from the spec: write-single-block command, short response,
data phase follows (cmd.rs missing). -/
def write_single_block (lba : Nat) : Command := ⟨24, lba, true, false, true⟩

/-- Modelled from the spec: stop-transmission command, short response,
no data (cmd.rs missing). -/
def stop_transmission : Command := ⟨12, 0, true, false, false⟩

/-- Modelled from the spec: internal clock-update command with no
card-facing semantics, no response (cmd.rs missing). -/
def up_clk : Command := ⟨0, 0, false, false, false⟩

/-! ### Fuel

Each millisecond budget of the source becomes a poll-count budget; the
fields give, per wait reason, how many predicate polls happen before
the countdown of the source expires, and for the transfer loops how
many loop iterations happen before their countdown expires.  v18 and
stop bound the n-th iterate taken of the two loops the source leaves
unbounded. -/

structure Fuel where
  cmdLine : Nat
  dataLine : Nat
  cmdDone : Nat
  reset : Nat
  data : Nat
  drain : Nat
  v18 : Nat
  stop : Nat
deriving DecidableEq, Repr

/-! ### The bounded-wait primitive and the four waits (ops.rs 27-63, 298-309) -/

/-- MmcOperate::wait_for (ops.rs 298): busy-poll the predicate until it
holds or the countdown expires; the countdown is checked before each
poll, so fuel 0 returns false without polling. -/
def wait_for (p : St → Bool × St) : Nat → St → Bool × St
  | 0, s => (false, s)
  | n + 1, s =>
    match p s with
    | (true, s) => (true, s)
    | (false, s) => wait_for p n s

/-- The shape of every predicate passed to wait_for in ops.rs: read one
register and test its value. -/
def poll_reg (env : Env) (off : Nat) (t : Nat → Bool) (s : St) : Bool × St :=
  let (v, s) := rd env off s
  (t v, s)

/-- MmcOperate::wait_for_cmd_line (ops.rs 27): wait for start_cmd to
clear in the command register. -/
def wait_for_cmd_line (env : Env) (fuel : Nat) (s : St) : Except Timeout Unit × St :=
  match wait_for (poll_reg env REG_CMD (fun v => v &&& CmdMask.start_cmd == 0)) fuel s with
  | (false, s) => (.error .waitCmdLine, s)
  | (true, s) => (.ok (), s)

/-- MmcOperate::wait_for_data_line (ops.rs 37): wait for data_busy to
clear in the status register. -/
def wait_for_data_line (env : Env) (fuel : Nat) (s : St) : Except Timeout Unit × St :=
  match wait_for (poll_reg env REG_STATUS (fun v => v &&& StatusMask.data_busy == 0)) fuel s with
  | (true, s) => (.ok (), s)
  | (false, s) => (.error .waitDataLine, s)

/-- MmcOperate::wait_for_cmd_done (ops.rs 47): wait for the command-done
bit in the raw interrupt status register. -/
def wait_for_cmd_done (env : Env) (fuel : Nat) (s : St) : Except Timeout Unit × St :=
  match wait_for (poll_reg env REG_RINTSTS (fun v => v &&& InterruptMask.cmd != 0)) fuel s with
  | (true, s) => (.ok (), s)
  | (false, s) => (.error .waitCmdDone, s)

/-- MmcOperate::wait_reset (ops.rs 57): wait for the given control
register bits to clear. -/
def wait_reset (env : Env) (fuel : Nat) (mask : Nat) (s : St) : Except Timeout Unit × St :=
  match wait_for (poll_reg env REG_CTRL (fun v => v &&& mask == 0)) fuel s with
  | (true, s) => (.ok (), s)
  | (false, s) => (.error .waitReset, s)

/-! ### send_cmd (ops.rs 65-115) -/

/-- Lines 66-74 of ops.rs send_cmd: wait for the command line, clear all
raw interrupt bits, wait for the data line when a data phase is
declared, program argument and command registers, wait for
command-done. -/
def send_cmd_pre (env : Env) (fl : Fuel) (c : Command) (s : St) : Except Timeout Unit × St :=
  match wait_for_cmd_line env fl.cmdLine s with
  | (.error t, s) => (.error t, s)
  | (.ok (), s) =>
    let s := wr REG_RINTSTS InterruptMask.all s
    match (if c.data_exp then wait_for_data_line env fl.dataLine s else (.ok (), s)) with
    | (.error t, s) => (.error t, s)
    | (.ok (), s) =>
      let s := wr REG_CMDARG c.arg s
      let s := wr REG_CMD c.to_cmd s
      wait_for_cmd_done env fl.cmdDone s

/-- Lines 75-109 of ops.rs send_cmd: when a response is expected, read
the raw interrupt status and classify in priority order
(response-timeout, then response-error, then response-CRC-error), each
returning immediately; otherwise read one response register for a short
response or the four response registers for a long one. -/
def resp_phase (env : Env) (c : Command) (s : St) : Except CardError Response × St :=
  if c.resp_exp then
    let (mask, s) := rd env REG_RINTSTS s
    if mask &&& InterruptMask.rto ≠ 0 then
      (.error (.interrupt .responseTimeout), wr REG_RINTSTS mask s)
    else if mask &&& InterruptMask.re ≠ 0 then
      (.error (.interrupt .responseErr), wr REG_RINTSTS mask s)
    else if mask &&& InterruptMask.rcrc ≠ 0 then
      (.error (.interrupt .responseCrc), s)
    else if c.resp_lang then
      let (r0, s) := rd env REG_RESP0 s
      let (r1, s) := rd env REG_RESP1 s
      let (r2, s) := rd env REG_RESP2 s
      let (r3, s) := rd env REG_RESP3 s
      (.ok (.R136 (r0, r1, r2, r3)), s)
    else
      let (r0, s) := rd env REG_RESP0 s
      (.ok (.R48 r0), s)
  else (.ok .Rz, s)

/-- Lines 110-114 of ops.rs send_cmd: when a data phase was declared,
wait (bounded) for the FIFO reset control bit to read clear; the settle
delay has no observable effect in this model. -/
def send_cmd_post (env : Env) (fl : Fuel) (c : Command) (r : Response) (s : St) :
    Except CardError Response × St :=
  if c.data_exp then
    match wait_reset env fl.reset ControlMask.fifo_reset s with
    | (.error t, s) => (.error (.timeout t), s)
    | (.ok (), s) => (.ok r, s)
  else (.ok r, s)

/-- MmcOperate::send_cmd (ops.rs 65): the full command transport. -/
def send_cmd (env : Env) (fl : Fuel) (c : Command) (s : St) : Except CardError Response × St :=
  match send_cmd_pre env fl c s with
  | (.error t, s) => (.error (.timeout t), s)
  | (.ok (), s) =>
    match resp_phase env c s with
    | (.error e, s) => (.error e, s)
    | (.ok r, s) => send_cmd_post env fl c r s

/-! ### Block transfer engine (ops.rs 117-176) -/

/-- Array update at an index; ops.rs indexes the borrowed buffer, which
in Rust panics when the index is out of range — the transfers settled by
the claims stay in range. -/
def setAt (a : Array Nat) (i v : Nat) : Array Nat :=
  if h : i < a.size then a.set ⟨i, h⟩ v else a

/-- Lines 134-137 of ops.rs read_data: the inner FIFO drain — while the
FIFO occupancy field (bits 17..29 of the status register) is nonzero,
read one byte from the data window at REG_DATA + offset into the buffer
and advance offset.  The source while-loop has no bound of its own;
fuel counts the remaining occupancy polls and exhaustion returns none
(the loop has not exited after that many polls). -/
def fifo_drain (env : Env) : Nat → Array Nat → Nat → St → Option (Array Nat × Nat × St)
  | 0, _, _, _ => none
  | n + 1, buf, offset, s =>
    let (v, s) := rd env REG_STATUS s
    if (v >>> 17) &&& 0x1FFF ≠ 0 then
      let (b, s) := rd env (REG_DATA + offset) s
      fifo_drain env n (setAt buf offset (b % 256)) (offset + 1) s
    else some (buf, offset, s)

/-- Lines 123-140 of ops.rs read_data: the polling loop.  Per iteration:
read raw interrupt status; break successfully when the full byte count
has been consumed and the transfer-complete bit is set; propagate any
fault bit via the shared classifier; fail with DataTransferTimeout when
the countdown has expired (fuel 0); otherwise, on a receive-ready or
transfer-complete bit, drain the FIFO and acknowledge the receive bit.
The final offset is returned along with the buffer. -/
def read_loop (env : Env) (size dfuel : Nat) :
    Nat → Array Nat → Nat → St → Option (Except CardError Unit × Array Nat × Nat × St)
  | fuel, buf, offset, s =>
    let (mask, s) := rd env REG_RINTSTS s
    if offset = size ∧ mask &&& InterruptMask.dto ≠ 0 then
      some (.ok (), buf, offset, s)
    else
      match Interrupt.check mask with
      | .error e => some (.error e, buf, offset, s)
      | .ok () =>
        match fuel with
        | 0 => some (.error .dataTransferTimeout, buf, offset, s)
        | fuel + 1 =>
          if mask &&& (InterruptMask.rxdr ||| InterruptMask.dto) ≠ 0 then
            match fifo_drain env dfuel buf offset s with
            | none => none
            | some (buf, offset, s) =>
              read_loop env size dfuel fuel buf offset (wr REG_RINTSTS InterruptMask.rxdr s)
          else read_loop env size dfuel fuel buf offset s

/-- MmcOperate::read_data (ops.rs 117): program block size and byte
count, run the polling loop, and on success clear all raw interrupt
bits by writing back the status just read. -/
def read_data (env : Env) (fl : Fuel) (buf : Array Nat) (blk blk_sz : Nat) (s : St) :
    Option (Except CardError Unit × Array Nat × St) :=
  let s := wr REG_BLKSIZ blk_sz s
  let s := wr REG_BYTCNT (blk_sz * blk) s
  match read_loop env (blk * blk_sz) fl.drain fl.data buf 0 s with
  | none => none
  | some (.error e, buf, _, s) => some (.error e, buf, s)
  | some (.ok (), buf, _, s) =>
    let (m, s) := rd env REG_RINTSTS s
    some (.ok (), buf, wr REG_RINTSTS m s)

/-- Lines 164-166 of ops.rs write_data: write all blk * blk_sz buffer
bytes to the data window, byte i to REG_DATA + i.  Rust indexing of the
buffer panics when out of range; buf.getD mirrors the in-range case. -/
def fifo_fill (buf : Array Nat) : Nat → Nat → St → St
  | _, 0, s => s
  | i, k + 1, s => fifo_fill buf (i + 1) k (wr (REG_DATA + i) (buf.getD i 0) s)

/-- Lines 153-169 of ops.rs write_data: the polling loop.  Per
iteration: read raw interrupt status; break successfully as soon as the
transfer-complete bit is set; propagate any fault bit; fail with
DataTransferTimeout when the countdown has expired (fuel 0); otherwise,
on a transmit-ready bit, write the entire buffer to the data window and
acknowledge the transmit bit. -/
def write_loop (env : Env) (buf : Array Nat) (blk blk_sz : Nat) :
    Nat → St → Option (Except CardError Unit × St)
  | fuel, s =>
    let (mask, s) := rd env REG_RINTSTS s
    if InterruptMask.dto &&& mask ≠ 0 then
      some (.ok (), s)
    else
      match Interrupt.check mask with
      | .error e => some (.error e, s)
      | .ok () =>
        match fuel with
        | 0 => some (.error .dataTransferTimeout, s)
        | fuel + 1 =>
          if mask &&& InterruptMask.txdr ≠ 0 then
            write_loop env buf blk blk_sz fuel
              (wr REG_RINTSTS InterruptMask.txdr (fifo_fill buf 0 (blk * blk_sz) s))
          else write_loop env buf blk blk_sz fuel s

/-- MmcOperate::write_data (ops.rs 149): program block size and byte
count, run the polling loop, and on success clear all raw interrupt
bits by writing back the status just read. -/
def write_data (env : Env) (fl : Fuel) (buf : Array Nat) (blk blk_sz : Nat) (s : St) :
    Option (Except CardError Unit × St) :=
  let s := wr REG_BLKSIZ blk_sz s
  let s := wr REG_BYTCNT (blk_sz * blk) s
  match write_loop env buf blk blk_sz fl.data s with
  | none => none
  | some (.error e, s) => some (.error e, s)
  | some (.ok (), s) =>
    let (m, s) := rd env REG_RINTSTS s
    some (.ok (), wr REG_RINTSTS m s)

/-! ### Clock and enumeration helpers (ops.rs 178-278) -/

/-- MmcOperate::reset_clock (ops.rs 178). -/
def reset_clock (env : Env) (fl : Fuel) (ena div : Nat) (s : St) : Except Timeout Unit × St :=
  match wait_for_cmd_line env fl.cmdLine s with
  | (.error t, s) => (.error t, s)
  | (.ok (), s) =>
    let s := wr REG_CLKENA 0 s
    let s := wr REG_CLKDIV div s
    let c := up_clk
    let s := wr REG_CMDARG c.arg s
    let s := wr REG_CMD c.to_cmd s
    if ena = 0 then (.ok (), s)
    else
      match wait_for_cmd_line env fl.cmdLine s with
      | (.error t, s) => (.error t, s)
      | (.ok (), s) =>
        let s := wr REG_CMD c.to_cmd s
        match wait_for_cmd_line env fl.cmdLine s with
        | (.error t, s) => (.error t, s)
        | (.ok (), s) =>
          let s := wr REG_CLKENA ena s
          let s := wr REG_CMDARG 0 s
          let s := wr REG_CMD c.to_cmd s
          (.ok (), s)

/-- MmcOperate::check_version (ops.rs 198): send-interface-condition and
validate voltage-accepted and the echoed pattern. -/
def check_version (env : Env) (fl : Fuel) (s : St) : Except CardError Cic × St :=
  match send_cmd env fl (send_if_cond 1 0xAA) s with
  | (.error e, s) => (.error e, s)
  | (.ok resp, s) =>
    let cic := resp.cic
    if cic.voltage_accepted == 1 && cic.pattern == 0xAA then (.ok cic, s)
    else (.error .voltagePattern, s)

/-- The n-th iterate of the op-condition busy-poll loop of
MmcOperate::check_v18_sdhc (ops.rs 211-227).  Each iteration sends the
app-command prefix and send-op-condition; the loop exits with the OCR
once it reports not-busy, and any send error propagates.  The source
loop has no countdown: none means the loop has not exited after n
iterations. -/
def check_v18_iter (env : Env) (fl : Fuel) : Nat → St → Option (Except CardError Ocr × St)
  | 0, _ => none
  | n + 1, s =>
    match send_cmd env fl (app_cmd 0) s with
    | (.error e, s) => some (.error e, s)
    | (.ok resp, s) =>
      let _status := resp.card_status
      match send_cmd env fl (sd_send_op_cond true true) s with
      | (.error e, s) => some (.error e, s)
      | (.ok resp, s) =>
        let ocr := resp.ocr
        if ocr.is_busy then check_v18_iter env fl n s
        else some (.ok ocr, s)

/-- MmcOperate::check_v18_sdhc (ops.rs 210), taken to fl.v18 iterates of
its unbounded busy-poll loop. -/
def check_v18_sdhc (env : Env) (fl : Fuel) (s : St) : Option (Except CardError Ocr × St) :=
  check_v18_iter env fl fl.v18 s

/-- MmcOperate::check_rca (ops.rs 232). -/
def check_rca (env : Env) (fl : Fuel) (s : St) : Except CardError Rca × St :=
  match send_cmd env fl send_relative_address s with
  | (.error e, s) => (.error e, s)
  | (.ok resp, s) => (.ok resp.rca, s)

/-- MmcOperate::check_cid (ops.rs 240). -/
def check_cid (env : Env) (fl : Fuel) (s : St) : Except CardError Cid × St :=
  match send_cmd env fl all_send_cid s with
  | (.error e, s) => (.error e, s)
  | (.ok resp, s) => (.ok resp.cid, s)

/-- MmcOperate::check_csd (ops.rs 248). -/
def check_csd (env : Env) (fl : Fuel) (rca : Rca) (s : St) : Except CardError Csd × St :=
  match send_cmd env fl (send_csd rca.address) s with
  | (.error e, s) => (.error e, s)
  | (.ok resp, s) => (.ok resp.csd, s)

/-- MmcOperate::sel_card (ops.rs 256). -/
def sel_card (env : Env) (fl : Fuel) (rca : Rca) (s : St) : Except CardError Unit × St :=
  match send_cmd env fl (select_card rca.address) s with
  | (.error e, s) => (.error e, s)
  | (.ok resp, s) =>
    let _status := resp.card_status
    (.ok (), s)

/-- MmcOperate::function_switch (ops.rs 264). -/
def function_switch (env : Env) (fl : Fuel) (arg : Nat) (s : St) : Except CardError Unit × St :=
  match send_cmd env fl (switch_function arg) s with
  | (.error e, s) => (.error e, s)
  | (.ok resp, s) =>
    let _status := resp.card_status
    (.ok (), s)

/-- MmcOperate::set_bus (ops.rs 272). -/
def set_bus (env : Env) (fl : Fuel) (rca : Rca) (s : St) : Except CardError Unit × St :=
  match send_cmd env fl (app_cmd rca.address) s with
  | (.error e, s) => (.error e, s)
  | (.ok _, s) =>
    match send_cmd env fl (set_bus_width 2) s with
    | (.error e, s) => (.error e, s)
    | (.ok resp, s) =>
      let _status := resp.card_status
      (.ok (), s)

/-! ### Stop-transmission recovery (ops.rs 280-296) -/

/-- The n-th iterate of the reissue loop of
MmcOperate::stop_transmission_ops (ops.rs 282-291).  Each iteration
waits for the command line (bounded, propagating its timeout), clears
all raw interrupt bits, programs argument and command registers, and
exits once the raw status shows no hardware-locked-error bit.  The
source loop has no countdown of its own: none means the loop has not
exited after n iterations. -/
def stop_loop_iter (env : Env) (fl : Fuel) (c : Command) :
    Nat → St → Option (Except CardError Unit × St)
  | 0, _ => none
  | n + 1, s =>
    match wait_for_cmd_line env fl.cmdLine s with
    | (.error t, s) => some (.error (.timeout t), s)
    | (.ok (), s) =>
      let s := wr REG_RINTSTS InterruptMask.all s
      let s := wr REG_CMDARG c.arg s
      let s := wr REG_CMD c.to_cmd s
      let (m, s) := rd env REG_RINTSTS s
      if m &&& InterruptMask.hle == 0 then some (.ok (), s)
      else stop_loop_iter env fl c n s

/-- MmcOperate::stop_transmission_ops (ops.rs 280): run the reissue loop
(taken to fl.stop iterates), read and discard the card-status response,
then wait for command-done. -/
def stop_transmission_ops (env : Env) (fl : Fuel) (s : St) :
    Option (Except CardError Unit × St) :=
  match stop_loop_iter env fl stop_transmission fl.stop s with
  | none => none
  | some (.error e, s) => some (.error e, s)
  | some (.ok (), s) =>
    let (r0, s) := rd env REG_RESP0 s
    let _status := (Response.R48 r0).card_status
    match wait_for_cmd_done env fl.cmdDone s with
    | (.error t, s) => some (.error (.timeout t), s)
    | (.ok (), s) => some (.ok (), s)

/-! ### The device handle and initialization (src/lib.rs) -/

/-- DwMmcHost (lib.rs 20): the cached card-identity snapshot and the
hardware capability word.  The base address is folded into the register
offsets and the timer handle into the fuel, so neither is a field
here. -/
structure DwMmcHost where
  rca : Rca
  ocr : Ocr
  cic : Cic
  cid : Cid
  csd : Csd
  hard_config : Nat
deriving DecidableEq, Repr

/-- DwMmcHost::new (lib.rs 33). -/
def DwMmcHost.new : DwMmcHost :=
  ⟨Rca.new, Ocr.new, Cic.new, Cid.new, Csd.new, 0⟩

/-- Lines 51-69 of lib.rs init: parse the hardware configuration word,
reset the controller, enable power, bring up the slow clock and program
the timeout, interrupt and bus-mode registers. -/
def init_setup (env : Env) (fl : Fuel) (h : DwMmcHost) (s : St) :
    Except DeviceError Unit × DwMmcHost × St :=
  let (hcon, s) := rd env REG_HCON s
  let h := { h with hard_config := hcon }
  let reset_mask := ControlMask.controller_reset ||| ControlMask.fifo_reset |||
    ControlMask.dma_reset
  let s := wr REG_CTRL reset_mask s
  match wait_reset env fl.reset reset_mask s with
  | (.error t, s) => (.error (.card (.timeout t)), h, s)
  | (.ok (), s) =>
  let s := wr REG_PWREN 1 s
  match reset_clock env fl 1 62 s with
  | (.error t, s) => (.error (.card (.timeout t)), h, s)
  | (.ok (), s) =>
  let s := wr REG_TMOUT 0xFFFFFFFF s
  let s := wr REG_RINTSTS InterruptMask.all s
  let s := wr REG_INTMASK 0 s
  let s := wr REG_CTYPE 1 s
  let s := wr REG_IDINTEN 0 s
  let s := wr REG_BMOD 1 s
  (.ok (), h, s)

/-- Lines 72-88 of lib.rs init: the strictly ordered enumeration
sequence — idle, voltage check, op-condition poll, CID, RCA, CSD, card
selection, function switch, bus width, full-speed clock, interrupt
enable.  Any failing step returns its error with the handle as updated
so far; none means the unbounded op-condition poll has not exited
within its iterate bound. -/
def init_enum (env : Env) (fl : Fuel) (h : DwMmcHost) (s : St) :
    Option (Except DeviceError Unit × DwMmcHost × St) :=
  match send_cmd env fl idle s with
  | (.error e, s) => some (.error (.card e), h, s)
  | (.ok _, s) =>
  match check_version env fl s with
  | (.error e, s) => some (.error (.card e), h, s)
  | (.ok cic, s) =>
  let h := { h with cic := cic }
  match check_v18_sdhc env fl s with
  | none => none
  | some (.error e, s) => some (.error (.card e), h, s)
  | some (.ok ocr, s) =>
  let h := { h with ocr := ocr }
  match check_cid env fl s with
  | (.error e, s) => some (.error (.card e), h, s)
  | (.ok cid, s) =>
  let h := { h with cid := cid }
  match check_rca env fl s with
  | (.error e, s) => some (.error (.card e), h, s)
  | (.ok rca, s) =>
  let h := { h with rca := rca }
  match check_csd env fl h.rca s with
  | (.error e, s) => some (.error (.card e), h, s)
  | (.ok csd, s) =>
  let h := { h with csd := csd }
  match sel_card env fl h.rca s with
  | (.error e, s) => some (.error (.card e), h, s)
  | (.ok (), s) =>
  match function_switch env fl 16777201 s with
  | (.error e, s) => some (.error (.card e), h, s)
  | (.ok (), s) =>
  match set_bus env fl h.rca s with
  | (.error e, s) => some (.error (.card e), h, s)
  | (.ok (), s) =>
  match reset_clock env fl 1 1 s with
  | (.error t, s) => some (.error (.card (.timeout t)), h, s)
  | (.ok (), s) =>
  let s := wr REG_IDINTEN 0x3 s
  some (.ok (), h, s)

/-- Device::init for DwMmcHost (lib.rs 49): the setup phase followed by
the enumeration sequence. -/
def init (env : Env) (fl : Fuel) (h : DwMmcHost) (s : St) :
    Option (Except DeviceError Unit × DwMmcHost × St) :=
  match init_setup env fl h s with
  | (.error e, h, s) => some (.error e, h, s)
  | (.ok (), h, s) => init_enum env fl h s

/-! ### Block-device boundary (src/lib.rs 113-172) -/

/-- BlockDevice::read_block for DwMmcHost (lib.rs 122): issue
read-single-block, run the read transfer sized to the buffer length
over the fixed 512-byte physical block size; on any command or transfer
error run the stop-transmission recovery (propagating its own failure)
and otherwise report the generic I/O error. -/
def read_block (env : Env) (fl : Fuel) (lba : Nat) (buf : Array Nat) (s : St) :
    Option (Except DeviceError Unit × Array Nat × St) :=
  match send_cmd env fl (read_single_block lba) s with
  | (.ok resp, s) =>
    let _status := resp.card_status
    let blk_sz := 512
    let blk := buf.size / blk_sz
    match read_data env fl buf blk blk_sz s with
    | none => none
    | some (.ok (), buf, s) => some (.ok (), buf, s)
    | some (.error _, buf, s) =>
      match stop_transmission_ops env fl s with
      | none => none
      | some (.error e2, s) => some (.error (.card e2), buf, s)
      | some (.ok (), s) => some (.error .ioError, buf, s)
  | (.error _, s) =>
    match stop_transmission_ops env fl s with
    | none => none
    | some (.error e2, s) => some (.error (.card e2), buf, s)
    | some (.ok (), s) => some (.error .ioError, buf, s)

/-- BlockDevice::write_block for DwMmcHost (lib.rs 148): issue
write-single-block, run the write transfer sized to the buffer length
over the fixed 512-byte physical block size; on any command or transfer
error run the stop-transmission recovery (propagating its own failure)
and otherwise report the generic I/O error. -/
def write_block (env : Env) (fl : Fuel) (lba : Nat) (buf : Array Nat) (s : St) :
    Option (Except DeviceError Unit × St) :=
  match send_cmd env fl (write_single_block lba) s with
  | (.ok resp, s) =>
    let _status := resp.card_status
    let blk_sz := 512
    let blk := buf.size / blk_sz
    match write_data env fl buf blk blk_sz s with
    | none => none
    | some (.ok (), s) => some (.ok (), s)
    | some (.error _, s) =>
      match stop_transmission_ops env fl s with
      | none => none
      | some (.error e2, s) => some (.error (.card e2), s)
      | some (.ok (), s) => some (.error .ioError, s)
  | (.error _, s) =>
    match stop_transmission_ops env fl s with
    | none => none
    | some (.error e2, s) => some (.error (.card e2), s)
    | some (.ok (), s) => some (.error .ioError, s)

/-! ### Trace predicates -/

/-- The event is a read of the given register offset. -/
def isReadOf (off : Nat) : Ev → Bool
  | .read o _ => o == off
  | .write _ _ => false

/-- The event is a write to the given register offset. -/
def isWriteTo (off : Nat) : Ev → Bool
  | .write o _ => o == off
  | .read _ _ => false

/-- The event is a read of one of the four response registers. -/
def isRespRead (e : Ev) : Bool :=
  isReadOf REG_RESP0 e || isReadOf REG_RESP1 e || isReadOf REG_RESP2 e ||
    isReadOf REG_RESP3 e

/-! ### Trace-shape lemmas for the phases of send_cmd -/

/-- Events a wait_for over a register poll can add to the trace: reads
of the polled offset only. -/
theorem wait_for_poll_mem (env : Env) (off : Nat) (t : Nat → Bool) :
    ∀ n s, ∀ e ∈ (wait_for (poll_reg env off t) n s).2.ev,
      e ∈ s.ev ∨ ∃ v, e = Ev.read off v := by
  intro n
  induction n with
  | zero => intro s e he; exact Or.inl he
  | succ n ih =>
    intro s e he
    by_cases ht : t (env s.rc off) = true
    · simp only [wait_for, poll_reg, rd, ht] at he
      rcases List.mem_cons.mp he with h | h
      · exact Or.inr ⟨_, h⟩
      · exact Or.inl h
    · rw [Bool.not_eq_true] at ht
      simp only [wait_for, poll_reg, rd, ht] at he
      rcases ih _ e he with h | h
      · rcases List.mem_cons.mp h with h2 | h2
        · exact Or.inr ⟨_, h2⟩
        · exact Or.inl h2
      · exact Or.inr h

/-- The state component of wait_for_cmd_line is that of the underlying
wait_for. -/
theorem wait_for_cmd_line_snd (env : Env) (fuel : Nat) (s : St) :
    (wait_for_cmd_line env fuel s).2 =
      (wait_for (poll_reg env REG_CMD (fun v => v &&& CmdMask.start_cmd == 0)) fuel s).2 := by
  unfold wait_for_cmd_line
  rcases wait_for (poll_reg env REG_CMD (fun v => v &&& CmdMask.start_cmd == 0)) fuel s with ⟨b, s2⟩
  cases b <;> rfl

/-- The state component of wait_for_data_line is that of the underlying
wait_for. -/
theorem wait_for_data_line_snd (env : Env) (fuel : Nat) (s : St) :
    (wait_for_data_line env fuel s).2 =
      (wait_for (poll_reg env REG_STATUS (fun v => v &&& StatusMask.data_busy == 0)) fuel s).2 := by
  unfold wait_for_data_line
  rcases wait_for (poll_reg env REG_STATUS (fun v => v &&& StatusMask.data_busy == 0)) fuel s with ⟨b, s2⟩
  cases b <;> rfl

/-- The state component of wait_for_cmd_done is that of the underlying
wait_for. -/
theorem wait_for_cmd_done_snd (env : Env) (fuel : Nat) (s : St) :
    (wait_for_cmd_done env fuel s).2 =
      (wait_for (poll_reg env REG_RINTSTS (fun v => v &&& InterruptMask.cmd != 0)) fuel s).2 := by
  unfold wait_for_cmd_done
  rcases wait_for (poll_reg env REG_RINTSTS (fun v => v &&& InterruptMask.cmd != 0)) fuel s with ⟨b, s2⟩
  cases b <;> rfl

/-- The state component of wait_reset is that of the underlying
wait_for. -/
theorem wait_reset_snd (env : Env) (fuel mask : Nat) (s : St) :
    (wait_reset env fuel mask s).2 =
      (wait_for (poll_reg env REG_CTRL (fun v => v &&& mask == 0)) fuel s).2 := by
  unfold wait_reset
  rcases wait_for (poll_reg env REG_CTRL (fun v => v &&& mask == 0)) fuel s with ⟨b, s2⟩
  cases b <;> rfl

/-- Events send_cmd_pre can add to the trace: reads of the command,
status and raw-interrupt-status registers, and writes; in particular no
read of a response register and no write to the control register. -/
theorem send_cmd_pre_mem (env : Env) (fl : Fuel) (c : Command) (s : St) :
    ∀ e ∈ (send_cmd_pre env fl c s).2.ev,
      e ∈ s.ev ∨ (∃ v, e = Ev.read REG_CMD v) ∨ (∃ v, e = Ev.read REG_STATUS v) ∨
        (∃ v, e = Ev.read REG_RINTSTS v) ∨ e = Ev.write REG_RINTSTS InterruptMask.all ∨
        e = Ev.write REG_CMDARG c.arg ∨ e = Ev.write REG_CMD c.to_cmd := by
  intro e he
  unfold send_cmd_pre at he
  rcases h1 : wait_for_cmd_line env fl.cmdLine s with ⟨r1, s1⟩
  rw [h1] at he
  have hs1 : ∀ x ∈ s1.ev, x ∈ s.ev ∨ ∃ v, x = Ev.read REG_CMD v := by
    intro x hx
    have h2 : s1 = (wait_for_cmd_line env fl.cmdLine s).2 := by rw [h1]
    rw [h2, wait_for_cmd_line_snd] at hx
    exact wait_for_poll_mem env REG_CMD _ fl.cmdLine s x hx
  cases r1 with
  | error t =>
    simp only at he
    rcases hs1 e he with h | h
    · exact Or.inl h
    · exact Or.inr (Or.inl h)
  | ok u =>
    cases u
    simp only at he
    rcases h2 : (if c.data_exp then wait_for_data_line env fl.dataLine (wr REG_RINTSTS InterruptMask.all s1)
        else (Except.ok (), wr REG_RINTSTS InterruptMask.all s1)) with ⟨r2, s2⟩
    rw [h2] at he
    have hs2 : ∀ x ∈ s2.ev,
        x ∈ (wr REG_RINTSTS InterruptMask.all s1).ev ∨ ∃ v, x = Ev.read REG_STATUS v := by
      intro x hx
      by_cases hd : c.data_exp = true
      · rw [hd, if_pos rfl] at h2
        have h3 : s2 = (wait_for_data_line env fl.dataLine (wr REG_RINTSTS InterruptMask.all s1)).2 := by
          rw [h2]
        rw [h3, wait_for_data_line_snd] at hx
        exact wait_for_poll_mem env REG_STATUS _ fl.dataLine _ x hx
      · rw [Bool.not_eq_true] at hd
        rw [hd] at h2
        simp only [Bool.false_eq_true, if_false] at h2
        have h3 : s2 = wr REG_RINTSTS InterruptMask.all s1 := (Prod.mk.injEq _ _ _ _ ▸ h2).2.symm ▸ rfl
        rcases Prod.mk.injEq .. ▸ h2 with ⟨_, hseq⟩
        exact Or.inl (hseq ▸ hx)
    have step : ∀ x ∈ s2.ev,
        x ∈ s.ev ∨ (∃ v, x = Ev.read REG_CMD v) ∨ (∃ v, x = Ev.read REG_STATUS v) ∨
          x = Ev.write REG_RINTSTS InterruptMask.all := by
      intro x hx
      rcases hs2 x hx with h | h
      · rcases List.mem_cons.mp h with h3 | h3
        · exact Or.inr (Or.inr (Or.inr h3))
        · rcases hs1 x h3 with h4 | h4
          · exact Or.inl h4
          · exact Or.inr (Or.inl h4)
      · exact Or.inr (Or.inr (Or.inl h))
    cases r2 with
    | error t =>
      simp only at he
      rcases step e he with h | h | h | h
      · exact Or.inl h
      · exact Or.inr (Or.inl h)
      · exact Or.inr (Or.inr (Or.inl h))
      · exact Or.inr (Or.inr (Or.inr (Or.inr (Or.inl h))))
    | ok u =>
      cases u
      simp only at he
      have h4 : (wait_for_cmd_done env fl.cmdDone
          (wr REG_CMD c.to_cmd (wr REG_CMDARG c.arg s2))).2 =
          (wait_for (poll_reg env REG_RINTSTS (fun v => v &&& InterruptMask.cmd != 0)) fl.cmdDone
            (wr REG_CMD c.to_cmd (wr REG_CMDARG c.arg s2))).2 :=
        wait_for_cmd_done_snd env fl.cmdDone _
      rw [h4] at he
      rcases wait_for_poll_mem env REG_RINTSTS _ fl.cmdDone _ e he with h | h
      · rcases List.mem_cons.mp h with h5 | h5
        · exact Or.inr (Or.inr (Or.inr (Or.inr (Or.inr (Or.inr h5)))))
        · rcases List.mem_cons.mp h5 with h6 | h6
          · exact Or.inr (Or.inr (Or.inr (Or.inr (Or.inr (Or.inl h6)))))
          · rcases step e h6 with h7 | h7 | h7 | h7
            · exact Or.inl h7
            · exact Or.inr (Or.inl h7)
            · exact Or.inr (Or.inr (Or.inl h7))
            · exact Or.inr (Or.inr (Or.inr (Or.inr (Or.inl h7))))
      · exact Or.inr (Or.inr (Or.inr (Or.inl h)))

/-- Events send_cmd_pre adds are never reads of a response register. -/
theorem send_cmd_pre_no_resp_read (env : Env) (fl : Fuel) (c : Command) (s : St) :
    ∀ e ∈ (send_cmd_pre env fl c s).2.ev, e ∈ s.ev ∨ isRespRead e = false := by
  intro e he
  rcases send_cmd_pre_mem env fl c s e he with h | h | h | h | h | h | h
  · exact Or.inl h
  · rcases h with ⟨v, rfl⟩; exact Or.inr rfl
  · rcases h with ⟨v, rfl⟩; exact Or.inr rfl
  · rcases h with ⟨v, rfl⟩; exact Or.inr rfl
  · subst h; exact Or.inr rfl
  · subst h; exact Or.inr rfl
  · subst h; exact Or.inr rfl

/-- Events send_cmd_pre adds are never writes to the control
register. -/
theorem send_cmd_pre_no_ctrl_write (env : Env) (fl : Fuel) (c : Command) (s : St) :
    ∀ e ∈ (send_cmd_pre env fl c s).2.ev, e ∈ s.ev ∨ isWriteTo REG_CTRL e = false := by
  intro e he
  rcases send_cmd_pre_mem env fl c s e he with h | h | h | h | h | h | h
  · exact Or.inl h
  · rcases h with ⟨v, rfl⟩; exact Or.inr rfl
  · rcases h with ⟨v, rfl⟩; exact Or.inr rfl
  · rcases h with ⟨v, rfl⟩; exact Or.inr rfl
  · subst h; exact Or.inr rfl
  · subst h; exact Or.inr rfl
  · subst h; exact Or.inr rfl

/-- Events send_cmd_post can add to the trace: reads of the control
register only. -/
theorem send_cmd_post_mem (env : Env) (fl : Fuel) (c : Command) (r : Response) (s : St) :
    ∀ e ∈ (send_cmd_post env fl c r s).2.ev, e ∈ s.ev ∨ ∃ v, e = Ev.read REG_CTRL v := by
  intro e he
  unfold send_cmd_post at he
  by_cases hd : c.data_exp = true
  · rw [hd] at he
    simp only [if_true] at he
    rcases h1 : wait_reset env fl.reset ControlMask.fifo_reset s with ⟨r1, s1⟩
    rw [h1] at he
    have hs1 : s1 = (wait_reset env fl.reset ControlMask.fifo_reset s).2 := by rw [h1]
    have key : ∀ x ∈ s1.ev, x ∈ s.ev ∨ ∃ v, x = Ev.read REG_CTRL v := by
      intro x hx
      rw [hs1, wait_reset_snd] at hx
      exact wait_for_poll_mem env REG_CTRL _ fl.reset s x hx
    cases r1 with
    | error t => exact key e he
    | ok u => cases u; exact key e he
  · rw [Bool.not_eq_true] at hd
    rw [hd] at he
    simp only [Bool.false_eq_true, if_false] at he
    exact Or.inl he

/-- Unfolding send_cmd once the pre phase succeeded. -/
theorem send_cmd_of_pre_ok (env : Env) (fl : Fuel) (c : Command) (s s1 : St)
    (hpre : send_cmd_pre env fl c s = (.ok (), s1)) :
    send_cmd env fl c s =
      match resp_phase env c s1 with
      | (.error e, s2) => (.error e, s2)
      | (.ok r, s2) => send_cmd_post env fl c r s2 := by
  unfold send_cmd
  rw [hpre]

/-- Unfolding send_cmd when the pre phase failed. -/
theorem send_cmd_of_pre_error (env : Env) (fl : Fuel) (c : Command) (s s1 : St) (t : Timeout)
    (hpre : send_cmd_pre env fl c s = (.error t, s1)) :
    send_cmd env fl c s = (.error (.timeout t), s1) := by
  unfold send_cmd
  rw [hpre]

/-- The response-timeout branch of the classification step (ops.rs 77):
the raw status is read once, written back, and ResponseTimeout is
returned at once. -/
theorem resp_phase_rto (env : Env) (c : Command) (s : St) (hresp : c.resp_exp = true)
    (h : env s.rc REG_RINTSTS &&& InterruptMask.rto ≠ 0) :
    resp_phase env c s =
      (.error (.interrupt .responseTimeout),
        ⟨s.rc + 1, Ev.write REG_RINTSTS (env s.rc REG_RINTSTS) ::
          Ev.read REG_RINTSTS (env s.rc REG_RINTSTS) :: s.ev⟩) := by
  unfold resp_phase
  rw [hresp]
  simp only [rd, wr, eq_self_iff_true, if_true, if_pos h]

/-- The response-error branch of the classification step (ops.rs 84):
entered only when the timeout bit is clear; the raw status is written
back and ResponseErr is returned at once. -/
theorem resp_phase_re (env : Env) (c : Command) (s : St) (hresp : c.resp_exp = true)
    (h0 : env s.rc REG_RINTSTS &&& InterruptMask.rto = 0)
    (h : env s.rc REG_RINTSTS &&& InterruptMask.re ≠ 0) :
    resp_phase env c s =
      (.error (.interrupt .responseErr),
        ⟨s.rc + 1, Ev.write REG_RINTSTS (env s.rc REG_RINTSTS) ::
          Ev.read REG_RINTSTS (env s.rc REG_RINTSTS) :: s.ev⟩) := by
  unfold resp_phase
  rw [hresp]
  simp only [rd, wr, eq_self_iff_true, if_true, if_neg (not_not_intro h0), if_pos h]

/-- The response-CRC branch of the classification step (ops.rs 91):
entered only when the timeout and error bits are clear; ResponseCrc is
returned at once and the raw status is not written back. -/
theorem resp_phase_rcrc (env : Env) (c : Command) (s : St) (hresp : c.resp_exp = true)
    (h0 : env s.rc REG_RINTSTS &&& InterruptMask.rto = 0)
    (h1 : env s.rc REG_RINTSTS &&& InterruptMask.re = 0)
    (h : env s.rc REG_RINTSTS &&& InterruptMask.rcrc ≠ 0) :
    resp_phase env c s =
      (.error (.interrupt .responseCrc),
        ⟨s.rc + 1, Ev.read REG_RINTSTS (env s.rc REG_RINTSTS) :: s.ev⟩) := by
  unfold resp_phase
  rw [hresp]
  simp only [rd, wr, eq_self_iff_true, if_true, if_neg (not_not_intro h0),
    if_neg (not_not_intro h1), if_pos h]

/-- The long-response read (ops.rs 98): with a clean status, exactly the
four response registers are read, in order 0, 1, 2, 3, and assembled in
that fixed order into the 136-bit variant. -/
theorem resp_phase_long (env : Env) (c : Command) (s : St) (hresp : c.resp_exp = true)
    (hlong : c.resp_lang = true)
    (h0 : env s.rc REG_RINTSTS &&& InterruptMask.rto = 0)
    (h1 : env s.rc REG_RINTSTS &&& InterruptMask.re = 0)
    (h2 : env s.rc REG_RINTSTS &&& InterruptMask.rcrc = 0) :
    resp_phase env c s =
      (.ok (.R136 (env (s.rc + 1) REG_RESP0, env (s.rc + 2) REG_RESP1,
          env (s.rc + 3) REG_RESP2, env (s.rc + 4) REG_RESP3)),
        ⟨s.rc + 5,
          Ev.read REG_RESP3 (env (s.rc + 4) REG_RESP3) ::
          Ev.read REG_RESP2 (env (s.rc + 3) REG_RESP2) ::
          Ev.read REG_RESP1 (env (s.rc + 2) REG_RESP1) ::
          Ev.read REG_RESP0 (env (s.rc + 1) REG_RESP0) ::
          Ev.read REG_RINTSTS (env s.rc REG_RINTSTS) :: s.ev⟩) := by
  unfold resp_phase
  rw [hresp, hlong]
  simp only [rd, wr, eq_self_iff_true, if_true, if_neg (not_not_intro h0),
    if_neg (not_not_intro h1), if_neg (not_not_intro h2)]

/-- The short-response read (ops.rs 105): with a clean status, exactly
one response register is read into the 48-bit variant. -/
theorem resp_phase_short (env : Env) (c : Command) (s : St) (hresp : c.resp_exp = true)
    (hshort : c.resp_lang = false)
    (h0 : env s.rc REG_RINTSTS &&& InterruptMask.rto = 0)
    (h1 : env s.rc REG_RINTSTS &&& InterruptMask.re = 0)
    (h2 : env s.rc REG_RINTSTS &&& InterruptMask.rcrc = 0) :
    resp_phase env c s =
      (.ok (.R48 (env (s.rc + 1) REG_RESP0)),
        ⟨s.rc + 2,
          Ev.read REG_RESP0 (env (s.rc + 1) REG_RESP0) ::
          Ev.read REG_RINTSTS (env s.rc REG_RINTSTS) :: s.ev⟩) := by
  unfold resp_phase
  rw [hresp, hshort]
  simp only [rd, wr, eq_self_iff_true, if_true, if_neg (not_not_intro h0),
    if_neg (not_not_intro h1), if_neg (not_not_intro h2), Bool.false_eq_true, if_false]

/-- The no-response case (ops.rs 107): nothing is read and the
no-response variant is produced. -/
theorem resp_phase_none (env : Env) (c : Command) (s : St) (hresp : c.resp_exp = false) :
    resp_phase env c s = (.ok .Rz, s) := by
  unfold resp_phase
  rw [hresp]
  simp only [Bool.false_eq_true, if_false]

/-! ### Concrete inputs for witnesses and counterexamples -/

/-- A concrete fuel assignment: one poll per bounded wait, and small
iteration budgets for the loops. -/
def fl1 : Fuel := ⟨1, 1, 1, 1, 4, 8, 4, 2⟩

/-- The empty starting state. -/
def st0 : St := ⟨0, []⟩

/-- A controller whose raw interrupt status always shows command-done,
response-timeout and response-CRC-error simultaneously, and whose other
registers read zero. -/
def envRtoCrc : Env := fun _ off =>
  if off = REG_RINTSTS then InterruptMask.cmd ||| InterruptMask.rto ||| InterruptMask.rcrc
  else 0

/-- A controller whose raw interrupt status always shows command-done
only, and whose response registers hold recognizable values. -/
def envClean : Env := fun _ off =>
  if off = REG_RINTSTS then InterruptMask.cmd
  else if off = REG_RESP0 then 0xA0
  else if off = REG_RESP1 then 0xA1
  else if off = REG_RESP2 then 0xA2
  else if off = REG_RESP3 then 0xA3
  else 0

/-- A controller whose raw interrupt status always shows command-done
and response-CRC-error, and whose other registers read zero. -/
def envCrc : Env := fun _ off =>
  if off = REG_RINTSTS then InterruptMask.cmd ||| InterruptMask.rcrc
  else 0

/-! ### C1 -/

/-- C1: for every command expecting a response, after command-done the
raw interrupt status is classified in priority order — the
response-timeout bit gives ResponseTimeout (with no assumption on any
other bit, so in particular when the CRC-error bit is set
simultaneously the result is still ResponseTimeout, never ResponseCrc),
else the response-error bit gives ResponseErr, else the
response-CRC-error bit gives ResponseCrc — and in each case send_cmd
returns at once, the result state showing that the only events after
command-done are the status read (and, for the first two, its
write-back), never a response-register read; no event of the phase up
to command-done is a response-register read either. -/
theorem C1_classification_priority (env : Env) (fl : Fuel) (c : Command) (s s1 : St)
    (hresp : c.resp_exp = true)
    (hpre : send_cmd_pre env fl c s = (.ok (), s1)) :
    (env s1.rc REG_RINTSTS &&& InterruptMask.rto ≠ 0 →
      send_cmd env fl c s =
        (.error (.interrupt .responseTimeout),
          ⟨s1.rc + 1, Ev.write REG_RINTSTS (env s1.rc REG_RINTSTS) ::
            Ev.read REG_RINTSTS (env s1.rc REG_RINTSTS) :: s1.ev⟩)) ∧
    (env s1.rc REG_RINTSTS &&& InterruptMask.rto = 0 →
      env s1.rc REG_RINTSTS &&& InterruptMask.re ≠ 0 →
      send_cmd env fl c s =
        (.error (.interrupt .responseErr),
          ⟨s1.rc + 1, Ev.write REG_RINTSTS (env s1.rc REG_RINTSTS) ::
            Ev.read REG_RINTSTS (env s1.rc REG_RINTSTS) :: s1.ev⟩)) ∧
    (env s1.rc REG_RINTSTS &&& InterruptMask.rto = 0 →
      env s1.rc REG_RINTSTS &&& InterruptMask.re = 0 →
      env s1.rc REG_RINTSTS &&& InterruptMask.rcrc ≠ 0 →
      send_cmd env fl c s =
        (.error (.interrupt .responseCrc),
          ⟨s1.rc + 1, Ev.read REG_RINTSTS (env s1.rc REG_RINTSTS) :: s1.ev⟩)) ∧
    (∀ e ∈ s1.ev, e ∈ s.ev ∨ isRespRead e = false) := by
  refine ⟨?_, ?_, ?_, ?_⟩
  · intro h
    rw [send_cmd_of_pre_ok env fl c s s1 hpre, resp_phase_rto env c s1 hresp h]
  · intro h0 h
    rw [send_cmd_of_pre_ok env fl c s s1 hpre, resp_phase_re env c s1 hresp h0 h]
  · intro h0 h1 h
    rw [send_cmd_of_pre_ok env fl c s s1 hpre, resp_phase_rcrc env c s1 hresp h0 h1 h]
  · intro e he
    exact send_cmd_pre_no_resp_read env fl c s e (by rw [hpre]; exact he)

/-- The state reached after the pre phase of send_cmd under envRtoCrc,
one poll per wait. -/
def s1RtoCrc : St :=
  ⟨2, [Ev.read REG_RINTSTS 0x144, Ev.write REG_CMD 0x80000043, Ev.write REG_CMDARG 0,
    Ev.write REG_RINTSTS 0xFFFF, Ev.read REG_CMD 0]⟩

/-- Witness for C1 at a concrete controller that raises
response-timeout and response-CRC-error simultaneously: send_cmd of a
response-expecting command returns ResponseTimeout, not ResponseCrc,
and reads no response register. -/
theorem C1_classification_priority_witness :
    send_cmd envRtoCrc fl1 send_relative_address st0 =
      (.error (.interrupt .responseTimeout),
        ⟨s1RtoCrc.rc + 1, Ev.write REG_RINTSTS (envRtoCrc s1RtoCrc.rc REG_RINTSTS) ::
          Ev.read REG_RINTSTS (envRtoCrc s1RtoCrc.rc REG_RINTSTS) :: s1RtoCrc.ev⟩) :=
  (C1_classification_priority envRtoCrc fl1 send_relative_address st0 s1RtoCrc rfl
    (by rfl)).1 (by decide)

/-- send_cmd_post passes the response through unchanged whenever it
succeeds. -/
theorem send_cmd_post_ok_shape (env : Env) (fl : Fuel) (c : Command) (r r2 : Response)
    (s s2 : St) (h : send_cmd_post env fl c r s = (.ok r2, s2)) : r2 = r := by
  unfold send_cmd_post at h
  by_cases hd : c.data_exp = true
  · rw [hd] at h
    simp only [if_true] at h
    rcases h1 : wait_reset env fl.reset ControlMask.fifo_reset s with ⟨r1, s1⟩
    rw [h1] at h
    cases r1 with
    | error t => simp at h
    | ok u =>
      cases u
      injection h with h1 h2
      injection h1 with h3
      exact h3.symm
  · rw [Bool.not_eq_true] at hd
    rw [hd] at h
    simp only [Bool.false_eq_true, if_false] at h
    injection h with h1 h2
    injection h1 with h3
    exact h3.symm

/-! ### C9 -/

/-- C9: a command with resp_exp false yields the no-response variant on
every successful run and send_cmd never reads a response register for
it; with a response expected and a clean status, the long-response flag
makes the classification step read exactly the four response registers
in the fixed order 0,1,2,3 and assemble them in that order into the
136-bit variant, and a short-response command makes it read exactly the
one response register 0 into the 48-bit variant. -/
theorem C9_response_shapes (env : Env) (fl : Fuel) (c : Command) (s s1 : St) :
    (c.resp_exp = false →
      (∀ r s2, send_cmd env fl c s = (.ok r, s2) → r = .Rz) ∧
      (∀ e ∈ (send_cmd env fl c s).2.ev, e ∈ s.ev ∨ isRespRead e = false)) ∧
    (c.resp_exp = true → c.resp_lang = true →
      env s1.rc REG_RINTSTS &&& InterruptMask.rto = 0 →
      env s1.rc REG_RINTSTS &&& InterruptMask.re = 0 →
      env s1.rc REG_RINTSTS &&& InterruptMask.rcrc = 0 →
      resp_phase env c s1 =
        (.ok (.R136 (env (s1.rc + 1) REG_RESP0, env (s1.rc + 2) REG_RESP1,
            env (s1.rc + 3) REG_RESP2, env (s1.rc + 4) REG_RESP3)),
          ⟨s1.rc + 5,
            Ev.read REG_RESP3 (env (s1.rc + 4) REG_RESP3) ::
            Ev.read REG_RESP2 (env (s1.rc + 3) REG_RESP2) ::
            Ev.read REG_RESP1 (env (s1.rc + 2) REG_RESP1) ::
            Ev.read REG_RESP0 (env (s1.rc + 1) REG_RESP0) ::
            Ev.read REG_RINTSTS (env s1.rc REG_RINTSTS) :: s1.ev⟩)) ∧
    (c.resp_exp = true → c.resp_lang = false →
      env s1.rc REG_RINTSTS &&& InterruptMask.rto = 0 →
      env s1.rc REG_RINTSTS &&& InterruptMask.re = 0 →
      env s1.rc REG_RINTSTS &&& InterruptMask.rcrc = 0 →
      resp_phase env c s1 =
        (.ok (.R48 (env (s1.rc + 1) REG_RESP0)),
          ⟨s1.rc + 2,
            Ev.read REG_RESP0 (env (s1.rc + 1) REG_RESP0) ::
            Ev.read REG_RINTSTS (env s1.rc REG_RINTSTS) :: s1.ev⟩)) := by
  refine ⟨?_, ?_, ?_⟩
  · intro hresp
    constructor
    · intro r s2 hsend
      rcases hp : send_cmd_pre env fl c s with ⟨r1, sx⟩
      cases r1 with
      | error t =>
        rw [send_cmd_of_pre_error env fl c s sx t hp] at hsend
        simp at hsend
      | ok u =>
        cases u
        rw [send_cmd_of_pre_ok env fl c s sx hp, resp_phase_none env c sx hresp] at hsend
        exact send_cmd_post_ok_shape env fl c .Rz r sx s2 hsend
    · intro e he
      rcases hp : send_cmd_pre env fl c s with ⟨r1, sx⟩
      have hx : ∀ x ∈ sx.ev, x ∈ s.ev ∨ isRespRead x = false := by
        intro x hxx
        exact send_cmd_pre_no_resp_read env fl c s x (by rw [hp]; exact hxx)
      cases r1 with
      | error t =>
        rw [send_cmd_of_pre_error env fl c s sx t hp] at he
        exact hx e he
      | ok u =>
        cases u
        rw [send_cmd_of_pre_ok env fl c s sx hp, resp_phase_none env c sx hresp] at he
        rcases send_cmd_post_mem env fl c .Rz sx e he with h | h
        · exact hx e h
        · rcases h with ⟨v, rfl⟩
          exact Or.inr rfl
  · intro hresp hlong h0 h1 h2
    exact resp_phase_long env c s1 hresp hlong h0 h1 h2
  · intro hresp hshort h0 h1 h2
    exact resp_phase_short env c s1 hresp hshort h0 h1 h2

/-- Witness for C9 at a concrete clean controller: the classification
step of a long-response command reads the four response registers in
order and assembles them into the 136-bit variant. -/
theorem C9_response_shapes_witness :
    resp_phase envClean all_send_cid st0 =
      (.ok (.R136 (0xA0, 0xA1, 0xA2, 0xA3)),
        ⟨5, [Ev.read REG_RESP3 0xA3, Ev.read REG_RESP2 0xA2, Ev.read REG_RESP1 0xA1,
          Ev.read REG_RESP0 0xA0, Ev.read REG_RINTSTS 0x4]⟩) := by
  have h := (C9_response_shapes envClean fl1 all_send_cid st0 st0).2.1 rfl rfl
    (by decide) (by decide) (by decide)
  exact h

/-! ### C10 -/

/-- C10: the error branches of send's classification step are
asymmetric about clearing interrupt state — on response-timeout and on
response-error the raw status word just read is written back before the
error returns, but on response-CRC-error alone the step returns with
only the status read in the trace and no write, leaving the raw
interrupt-status register uncleared. -/
theorem C10_clear_asymmetry (env : Env) (c : Command) (s : St)
    (hresp : c.resp_exp = true) :
    (env s.rc REG_RINTSTS &&& InterruptMask.rto ≠ 0 →
      resp_phase env c s =
        (.error (.interrupt .responseTimeout),
          ⟨s.rc + 1, Ev.write REG_RINTSTS (env s.rc REG_RINTSTS) ::
            Ev.read REG_RINTSTS (env s.rc REG_RINTSTS) :: s.ev⟩)) ∧
    (env s.rc REG_RINTSTS &&& InterruptMask.rto = 0 →
      env s.rc REG_RINTSTS &&& InterruptMask.re ≠ 0 →
      resp_phase env c s =
        (.error (.interrupt .responseErr),
          ⟨s.rc + 1, Ev.write REG_RINTSTS (env s.rc REG_RINTSTS) ::
            Ev.read REG_RINTSTS (env s.rc REG_RINTSTS) :: s.ev⟩)) ∧
    (env s.rc REG_RINTSTS &&& InterruptMask.rto = 0 →
      env s.rc REG_RINTSTS &&& InterruptMask.re = 0 →
      env s.rc REG_RINTSTS &&& InterruptMask.rcrc ≠ 0 →
      resp_phase env c s =
        (.error (.interrupt .responseCrc),
          ⟨s.rc + 1, Ev.read REG_RINTSTS (env s.rc REG_RINTSTS) :: s.ev⟩) ∧
      ∀ e ∈ (resp_phase env c s).2.ev, isWriteTo REG_RINTSTS e = true → e ∈ s.ev) := by
  refine ⟨resp_phase_rto env c s hresp, resp_phase_re env c s hresp, ?_⟩
  intro h0 h1 h
  have heq := resp_phase_rcrc env c s hresp h0 h1 h
  refine ⟨heq, ?_⟩
  intro e he hw
  rw [heq] at he
  rcases List.mem_cons.mp he with h2 | h2
  · subst h2; simp [isWriteTo] at hw
  · exact h2

/-- Witness for C10 at a concrete controller raising only the CRC-error
bit: the classification step returns ResponseCrc with the status read
as the only new event — no write-back. -/
theorem C10_clear_asymmetry_witness :
    resp_phase envCrc send_relative_address st0 =
      (.error (.interrupt .responseCrc),
        ⟨st0.rc + 1, Ev.read REG_RINTSTS (envCrc st0.rc REG_RINTSTS) :: st0.ev⟩) :=
  ((C10_clear_asymmetry envCrc send_relative_address st0 rfl).2.2 (by decide) (by decide)
    (by decide)).1

/-! ### C2 -/

/-- Interrupt.check succeeds exactly on fault-free status words. -/
theorem interrupt_check_ok (m : Nat) (h : m &&& faultMask = 0) : Interrupt.check m = .ok () := by
  unfold Interrupt.check
  rw [if_neg (not_not_intro h)]

/-- Interrupt.check propagates the fault bits of a faulty status word. -/
theorem interrupt_check_error (m : Nat) (h : m &&& faultMask ≠ 0) :
    Interrupt.check m = .error (.interrupt (.fault (m &&& faultMask))) := by
  unfold Interrupt.check
  rw [if_pos h]

/-- The trace ends (newest event first) with a raw-interrupt-status read
whose value has the transfer-complete bit set. -/
def exits_on_dto : List Ev → Prop
  | Ev.read off m :: _ => off = REG_RINTSTS ∧ m &&& InterruptMask.dto ≠ 0
  | _ => False

/-- C2: the read-transfer polling loop returns successfully only when
the final offset equals the full expected byte count blk * blk_sz and
the raw interrupt status just read has the transfer-complete bit set;
a transfer-complete bit raised while bytes remain to be drained can
never produce an early successful exit. -/
theorem C2_read_success_needs_count_and_dto (env : Env) (blk blk_sz dfuel : Nat) :
    ∀ fuel buf offset s bufF offF sF,
      read_loop env (blk * blk_sz) dfuel fuel buf offset s = some (.ok (), bufF, offF, sF) →
      offF = blk * blk_sz ∧ exits_on_dto sF.ev := by
  intro fuel
  induction fuel with
  | zero =>
    intro buf offset s bufF offF sF h
    unfold read_loop at h
    simp only [rd] at h
    by_cases hb : offset = blk * blk_sz ∧ env s.rc REG_RINTSTS &&& InterruptMask.dto ≠ 0
    · rw [if_pos hb] at h
      simp only [Option.some.injEq, Prod.mk.injEq] at h
      obtain ⟨-, -, hoff, hs⟩ := h
      subst hs
      exact ⟨hoff.symm.trans hb.1, ⟨rfl, hb.2⟩⟩
    · rw [if_neg hb] at h
      by_cases hf : env s.rc REG_RINTSTS &&& faultMask ≠ 0
      · rw [interrupt_check_error _ hf] at h
        simp at h
      · rw [interrupt_check_ok _ (not_not.mp hf)] at h
        simp at h
  | succ n ih =>
    intro buf offset s bufF offF sF h
    unfold read_loop at h
    simp only [rd] at h
    by_cases hb : offset = blk * blk_sz ∧ env s.rc REG_RINTSTS &&& InterruptMask.dto ≠ 0
    · rw [if_pos hb] at h
      simp only [Option.some.injEq, Prod.mk.injEq] at h
      obtain ⟨-, -, hoff, hs⟩ := h
      subst hs
      exact ⟨hoff.symm.trans hb.1, ⟨rfl, hb.2⟩⟩
    · rw [if_neg hb] at h
      by_cases hf : env s.rc REG_RINTSTS &&& faultMask ≠ 0
      · rw [interrupt_check_error _ hf] at h
        simp at h
      · rw [interrupt_check_ok _ (not_not.mp hf)] at h
        by_cases hr : env s.rc REG_RINTSTS &&& (InterruptMask.rxdr ||| InterruptMask.dto) ≠ 0
        · rw [if_pos hr] at h
          rcases hd : fifo_drain env dfuel buf offset
              (⟨s.rc + 1, Ev.read REG_RINTSTS (env s.rc REG_RINTSTS) :: s.ev⟩ : St) with
            _ | ⟨buf2, off2, s2⟩
          · rw [hd] at h
            simp at h
          · rw [hd] at h
            exact ih buf2 off2 _ bufF offF sF h
        · rw [if_neg hr] at h
          exact ih buf offset _ bufF offF sF h

/-- A controller that signals receive-ready on the first status read and
transfer-complete afterwards, with a FIFO occupancy of one byte on the
first two occupancy polls and the two data bytes 0xAB, 0xCD. -/
def envReadSeq : Env := fun rc off =>
  if off = REG_RINTSTS then (if rc = 0 then InterruptMask.rxdr else InterruptMask.dto)
  else if off = REG_STATUS then (if rc = 1 ∨ rc = 3 then 0x20000 else 0)
  else if off = REG_DATA then 0xAB
  else if off = REG_DATA + 1 then 0xCD
  else 0

/-- The final state of the witness run of the read-transfer loop under
envReadSeq: two bytes drained one at a time, receive bit acknowledged,
exit on transfer-complete with the full count consumed. -/
def sReadF : St :=
  ⟨7, [Ev.read REG_RINTSTS 0x8, Ev.write REG_RINTSTS 0x20, Ev.read REG_STATUS 0,
    Ev.read (REG_DATA + 1) 0xCD, Ev.read REG_STATUS 0x20000, Ev.read REG_DATA 0xAB,
    Ev.read REG_STATUS 0x20000, Ev.read REG_RINTSTS 0x20]⟩

/-- Witness for C2 at a concrete one-block two-byte transfer: the loop
exits successfully with the full count consumed and transfer-complete
set in the final status read. -/
theorem C2_read_success_needs_count_and_dto_witness :
    2 = 1 * 2 ∧ exits_on_dto sReadF.ev :=
  C2_read_success_needs_count_and_dto envReadSeq 1 2 8 4 (Array.mkArray 2 0) 0 st0
    #[0xAB, 0xCD] 2 sReadF (by rfl)

/-! ### C7 -/

/-- A controller whose raw interrupt status always shows
transfer-complete together with the data-CRC fault bit. -/
def envDtoFault : Env := fun _ off =>
  if off = REG_RINTSTS then InterruptMask.dto ||| 0x80 else 0

/-- C7 as stated is false: a status read carrying both a data-phase
fault bit and the transfer-complete bit makes the write-transfer loop
exit successfully instead of aborting with a CardError — the break
check precedes the fault check. -/
theorem C7_fault_ignored_on_complete_counterexample :
    write_loop envDtoFault (Array.mkArray 2 0) 1 2 1 st0 =
      some (.ok (), ⟨1, [Ev.read REG_RINTSTS 0x88]⟩) := by
  rfl

/-- C7 amended: in both transfer loops a status read carrying a fault
bit aborts at once with the corresponding CardError, regardless of the
current offset — except when the same read also satisfies the loop's
success condition (transfer-complete set, and for the read path the
full count already consumed), in which case the loop exits successfully
first. -/
theorem C7_fault_aborts_unless_complete (env : Env) (blk blk_sz dfuel fuel : Nat)
    (buf : Array Nat) (offset : Nat) (s : St)
    (hf : env s.rc REG_RINTSTS &&& faultMask ≠ 0) :
    (¬(offset = blk * blk_sz ∧ env s.rc REG_RINTSTS &&& InterruptMask.dto ≠ 0) →
      read_loop env (blk * blk_sz) dfuel fuel buf offset s =
        some (.error (.interrupt (.fault (env s.rc REG_RINTSTS &&& faultMask))), buf, offset,
          ⟨s.rc + 1, Ev.read REG_RINTSTS (env s.rc REG_RINTSTS) :: s.ev⟩)) ∧
    (InterruptMask.dto &&& env s.rc REG_RINTSTS = 0 →
      write_loop env buf blk blk_sz fuel s =
        some (.error (.interrupt (.fault (env s.rc REG_RINTSTS &&& faultMask))),
          ⟨s.rc + 1, Ev.read REG_RINTSTS (env s.rc REG_RINTSTS) :: s.ev⟩)) := by
  constructor
  · intro hnb
    unfold read_loop
    simp only [rd]
    rw [if_neg hnb, interrupt_check_error _ hf]
  · intro hnd
    unfold write_loop
    simp only [rd]
    rw [if_neg (not_not_intro hnd), interrupt_check_error _ hf]

/-- Witness for the amended C7: with transfer-complete and a fault bit
both set but one byte still to drain, the read loop aborts with the
fault error rather than exiting. -/
theorem C7_fault_aborts_unless_complete_witness :
    read_loop envDtoFault (1 * 2) 8 4 (Array.mkArray 2 0) 0 st0 =
      some (.error (.interrupt (.fault 0x80)), Array.mkArray 2 0, 0,
        ⟨1, [Ev.read REG_RINTSTS 0x88]⟩) :=
  (C7_fault_aborts_unless_complete envDtoFault 1 2 8 4 (Array.mkArray 2 0) 0 st0
    (by decide)).1 (by decide)

/-! ### C8 -/

/-- A controller that signals transmit-ready on the first status read
and transfer-complete afterwards, with zero FIFO occupancy. -/
def envTxdrDto : Env := fun rc off =>
  if off = REG_RINTSTS then (if rc = 0 then InterruptMask.txdr else InterruptMask.dto) else 0

/-- No event of the list reads the status register. -/
def noStatusRead (l : List Ev) : Bool := l.all fun e => !(isReadOf REG_STATUS e)

/-- C8 as stated is false for the write path: on a transmit-ready event
the loop writes the entire blk * blk_sz buffer to the data window and
acknowledges the bit without ever reading the status register, so the
per-event byte output is not governed by the FIFO occupancy field. -/
theorem C8_write_ignores_occupancy_counterexample :
    write_loop envTxdrDto (Array.mkArray 2 0xAB) 1 2 2 st0 =
      some (.ok (),
        ⟨2, [Ev.read REG_RINTSTS 0x8, Ev.write REG_RINTSTS 0x10,
          Ev.write (REG_DATA + 1) 0xAB, Ev.write REG_DATA 0xAB,
          Ev.read REG_RINTSTS 0x10]⟩) ∧
    noStatusRead [Ev.read REG_RINTSTS 0x8, Ev.write REG_RINTSTS 0x10,
      Ev.write (REG_DATA + 1) 0xAB, Ev.write REG_DATA 0xAB,
      Ev.read REG_RINTSTS 0x10] = true := by
  constructor
  · rfl
  · rfl

/-- C8 amended: on the read path the FIFO is drained one byte at a time
exactly while the occupancy field read from the status register is
nonzero; on the write path a transmit-ready event makes the loop write
the entire blk * blk_sz buffer to the data window unconditionally —
governed by no occupancy read — and then acknowledge the transmit
bit. -/
theorem C8_fifo_event_behaviour (env : Env) (buf : Array Nat)
    (blk blk_sz dfuel offset fuel : Nat) (s : St) :
    ((env s.rc REG_STATUS >>> 17) &&& 0x1FFF = 0 →
      fifo_drain env (dfuel + 1) buf offset s =
        some (buf, offset, ⟨s.rc + 1, Ev.read REG_STATUS (env s.rc REG_STATUS) :: s.ev⟩)) ∧
    ((env s.rc REG_STATUS >>> 17) &&& 0x1FFF ≠ 0 →
      fifo_drain env (dfuel + 1) buf offset s =
        fifo_drain env dfuel (setAt buf offset (env (s.rc + 1) (REG_DATA + offset) % 256))
          (offset + 1)
          ⟨s.rc + 2, Ev.read (REG_DATA + offset) (env (s.rc + 1) (REG_DATA + offset)) ::
            Ev.read REG_STATUS (env s.rc REG_STATUS) :: s.ev⟩) ∧
    (env s.rc REG_RINTSTS &&& InterruptMask.txdr ≠ 0 →
      InterruptMask.dto &&& env s.rc REG_RINTSTS = 0 →
      env s.rc REG_RINTSTS &&& faultMask = 0 →
      write_loop env buf blk blk_sz (fuel + 1) s =
        write_loop env buf blk blk_sz fuel
          (wr REG_RINTSTS InterruptMask.txdr
            (fifo_fill buf 0 (blk * blk_sz)
              ⟨s.rc + 1, Ev.read REG_RINTSTS (env s.rc REG_RINTSTS) :: s.ev⟩))) := by
  refine ⟨?_, ?_, ?_⟩
  · intro h
    unfold fifo_drain
    simp only [rd]
    rw [if_neg (not_not_intro h)]
  · intro h
    conv_lhs => unfold fifo_drain
    simp only [rd]
    rw [if_pos h]
  · intro htx hnd hnf
    conv_lhs => unfold write_loop
    simp only [rd]
    rw [if_neg (not_not_intro hnd), interrupt_check_ok _ hnf, if_pos htx]

/-- Witness for the amended C8: under the concrete transmit-ready
controller the drain stops at once on zero occupancy, and the write
loop's first event writes the whole two-byte buffer and acknowledges
transmit-ready. -/
theorem C8_fifo_event_behaviour_witness :
    fifo_drain envTxdrDto (0 + 1) (Array.mkArray 2 0xAB) 0 st0 =
      some (Array.mkArray 2 0xAB, 0, ⟨1, [Ev.read REG_STATUS 0]⟩) ∧
    write_loop envTxdrDto (Array.mkArray 2 0xAB) 1 2 (1 + 1) st0 =
      write_loop envTxdrDto (Array.mkArray 2 0xAB) 1 2 1
        (wr REG_RINTSTS InterruptMask.txdr
          (fifo_fill (Array.mkArray 2 0xAB) 0 (1 * 2)
            ⟨1, [Ev.read REG_RINTSTS 0x10]⟩)) :=
  ⟨(C8_fifo_event_behaviour envTxdrDto (Array.mkArray 2 0xAB) 1 2 0 0 1 st0).1 (by decide),
    (C8_fifo_event_behaviour envTxdrDto (Array.mkArray 2 0xAB) 1 2 0 0 1 st0).2.2
      (by decide) (by decide) (by decide)⟩

/-! ### C4 -/

/-- Events the classification step adds are never writes to the control
register. -/
theorem resp_phase_no_ctrl_write (env : Env) (c : Command) (s : St) :
    ∀ e ∈ (resp_phase env c s).2.ev, e ∈ s.ev ∨ isWriteTo REG_CTRL e = false := by
  intro e he
  unfold resp_phase at he
  by_cases hresp : c.resp_exp = true
  · rw [hresp] at he
    simp only [rd, wr, eq_self_iff_true, if_true] at he
    split at he
    · simp only [List.mem_cons] at he
      rcases he with rfl | rfl | he
      · exact Or.inr rfl
      · exact Or.inr rfl
      · exact Or.inl he
    · split at he
      · simp only [List.mem_cons] at he
        rcases he with rfl | rfl | he
        · exact Or.inr rfl
        · exact Or.inr rfl
        · exact Or.inl he
      · split at he
        · simp only [List.mem_cons] at he
          rcases he with rfl | he
          · exact Or.inr rfl
          · exact Or.inl he
        · split at he
          · simp only [List.mem_cons] at he
            rcases he with rfl | rfl | rfl | rfl | rfl | he
            · exact Or.inr rfl
            · exact Or.inr rfl
            · exact Or.inr rfl
            · exact Or.inr rfl
            · exact Or.inr rfl
            · exact Or.inl he
          · simp only [List.mem_cons] at he
            rcases he with rfl | rfl | he
            · exact Or.inr rfl
            · exact Or.inr rfl
            · exact Or.inl he
  · rw [Bool.not_eq_true] at hresp
    rw [hresp] at he
    simp only [Bool.false_eq_true, if_false] at he
    exact Or.inl he

/-- A wait_for over a register whose polled bits never clear returns
false for every fuel. -/
theorem wait_for_stuck (env : Env) (off mask : Nat)
    (h : ∀ i, env i off &&& mask ≠ 0) :
    ∀ n s, (wait_for (poll_reg env off (fun v => v &&& mask == 0)) n s).1 = false := by
  intro n
  induction n with
  | zero => intro s; rfl
  | succ n ih =>
    intro s
    have hv : (env s.rc off &&& mask == 0) = false := by
      simpa using h s.rc
    simp only [wait_for, poll_reg, rd, hv]
    exact ih _

/-- wait_reset fails with Timeout::WaitReset whenever the polled control
bits never read clear. -/
theorem wait_reset_stuck (env : Env) (fuel mask : Nat) (s : St)
    (h : ∀ i, env i REG_CTRL &&& mask ≠ 0) :
    wait_reset env fuel mask s =
      (.error .waitReset,
        (wait_for (poll_reg env REG_CTRL (fun v => v &&& mask == 0)) fuel s).2) := by
  unfold wait_reset
  rcases hw : wait_for (poll_reg env REG_CTRL (fun v => v &&& mask == 0)) fuel s with ⟨b, s2⟩
  have hb : b = false := by
    have := wait_for_stuck env REG_CTRL mask h fuel s
    rw [hw] at this
    exact this
  subst hb
  rfl

/-- C4 amended: for a command with a data phase, send_cmd waits
(bounded by the reset budget) for the FIFO-reset control bit to read
clear and fails with Timeout::WaitReset when the controller never
clears it; but send_cmd never writes the control register, so it does
not itself issue the FIFO reset. -/
theorem C4_fifo_reset_wait_no_write (env : Env) (fl : Fuel) (c : Command) (s : St) :
    (∀ e ∈ (send_cmd env fl c s).2.ev, e ∈ s.ev ∨ isWriteTo REG_CTRL e = false) ∧
    (∀ s1 r s2, c.data_exp = true →
      send_cmd_pre env fl c s = (.ok (), s1) →
      resp_phase env c s1 = (.ok r, s2) →
      (∀ i, env i REG_CTRL &&& ControlMask.fifo_reset ≠ 0) →
      send_cmd env fl c s =
        (.error (.timeout .waitReset),
          (wait_for (poll_reg env REG_CTRL (fun v => v &&& ControlMask.fifo_reset == 0))
            fl.reset s2).2)) := by
  constructor
  · intro e he
    rcases hp : send_cmd_pre env fl c s with ⟨r1, sx⟩
    have hx : ∀ x ∈ sx.ev, x ∈ s.ev ∨ isWriteTo REG_CTRL x = false := by
      intro x hxx
      exact send_cmd_pre_no_ctrl_write env fl c s x (by rw [hp]; exact hxx)
    cases r1 with
    | error t =>
      rw [send_cmd_of_pre_error env fl c s sx t hp] at he
      exact hx e he
    | ok u =>
      cases u
      rw [send_cmd_of_pre_ok env fl c s sx hp] at he
      rcases hr : resp_phase env c sx with ⟨r2, sy⟩
      have hy : ∀ x ∈ sy.ev, x ∈ s.ev ∨ isWriteTo REG_CTRL x = false := by
        intro x hxx
        rcases resp_phase_no_ctrl_write env c sx x (by rw [hr]; exact hxx) with h | h
        · exact hx x h
        · exact Or.inr h
      rw [hr] at he
      cases r2 with
      | error e2 => exact hy e he
      | ok r =>
        rcases send_cmd_post_mem env fl c r sy e he with h | h
        · exact hy e h
        · rcases h with ⟨v, rfl⟩
          exact Or.inr rfl
  · intro s1 r s2 hd hpre hresp hctrl
    rw [send_cmd_of_pre_ok env fl c s s1 hpre, hresp]
    show send_cmd_post env fl c r s2 = _
    unfold send_cmd_post
    rw [hd]
    simp only [if_true]
    rw [wait_reset_stuck env fl.reset ControlMask.fifo_reset s2 hctrl]

/-- A controller like envClean but whose control register always shows
the FIFO-reset bit still set. -/
def envStuckCtrl : Env := fun _ off =>
  if off = REG_CTRL then ControlMask.fifo_reset
  else if off = REG_RINTSTS then InterruptMask.cmd
  else if off = REG_RESP0 then 0xA0
  else 0

/-- Witness for the amended C4: with the FIFO-reset bit stuck, send_cmd
of a data-phase command fails with Timeout::WaitReset after the bounded
wait. -/
theorem C4_fifo_reset_wait_no_write_witness :
    send_cmd envStuckCtrl fl1 (read_single_block 5) st0 =
      (.error (.timeout .waitReset),
        ⟨6, [Ev.read REG_CTRL 0x2, Ev.read REG_RESP0 0xA0, Ev.read REG_RINTSTS 0x4,
          Ev.read REG_RINTSTS 0x4, Ev.write REG_CMD 0x80000251, Ev.write REG_CMDARG 5,
          Ev.read REG_STATUS 0, Ev.write REG_RINTSTS 0xFFFF, Ev.read REG_CMD 0]⟩) :=
  (C4_fifo_reset_wait_no_write envStuckCtrl fl1 (read_single_block 5) st0).2
    ⟨3, [Ev.read REG_RINTSTS 0x4, Ev.write REG_CMD 0x80000251, Ev.write REG_CMDARG 5,
      Ev.read REG_STATUS 0, Ev.write REG_RINTSTS 0xFFFF, Ev.read REG_CMD 0]⟩
    (.R48 0xA0)
    ⟨5, [Ev.read REG_RESP0 0xA0, Ev.read REG_RINTSTS 0x4, Ev.read REG_RINTSTS 0x4,
      Ev.write REG_CMD 0x80000251, Ev.write REG_CMDARG 5, Ev.read REG_STATUS 0,
      Ev.write REG_RINTSTS 0xFFFF, Ev.read REG_CMD 0]⟩
    rfl (by rfl) (by rfl) (fun i => by simp [envStuckCtrl, ControlMask.fifo_reset])

/-- No event of the list writes the control register. -/
def noCtrlWrite (l : List Ev) : Bool := l.all fun e => !(isWriteTo REG_CTRL e)

/-- C4 as stated is false: a complete successful run of send_cmd for a
data-phase command contains no write to the control register at all —
send_cmd only waits for the FIFO-reset bit to clear, it never issues
the reset write itself. -/
theorem C4_no_fifo_reset_write_counterexample :
    send_cmd envClean fl1 (read_single_block 5) st0 =
      (.ok (.R48 0xA0),
        ⟨6, [Ev.read REG_CTRL 0, Ev.read REG_RESP0 0xA0, Ev.read REG_RINTSTS 0x4,
          Ev.read REG_RINTSTS 0x4, Ev.write REG_CMD 0x80000251, Ev.write REG_CMDARG 5,
          Ev.read REG_STATUS 0, Ev.write REG_RINTSTS 0xFFFF, Ev.read REG_CMD 0]⟩) ∧
    noCtrlWrite [Ev.read REG_CTRL 0, Ev.read REG_RESP0 0xA0, Ev.read REG_RINTSTS 0x4,
      Ev.read REG_RINTSTS 0x4, Ev.write REG_CMD 0x80000251, Ev.write REG_CMDARG 5,
      Ev.read REG_STATUS 0, Ev.write REG_RINTSTS 0xFFFF, Ev.read REG_CMD 0] = true := by
  constructor
  · rfl
  · rfl

/-! ### C3 -/

/-- The op-condition busy-poll loop of check_v18_sdhc never exits under
the given controller, whatever iterate is taken. -/
def check_v18_diverges (env : Env) (fl : Fuel) (s : St) : Prop :=
  ∀ n, check_v18_iter env fl n s = none

/-- The reissue loop of stop_transmission_ops never exits under the
given controller, whatever iterate is taken. -/
def stop_loop_diverges (env : Env) (fl : Fuel) (c : Command) (s : St) : Prop :=
  ∀ n, stop_loop_iter env fl c n s = none

/-- Under envClean, send_cmd of the app-command prefix succeeds with
the short response 0xA0 after four reads. -/
theorem send_app_cmd_clean (s : St) :
    send_cmd envClean fl1 (app_cmd 0) s =
      (.ok (.R48 0xA0),
        ⟨s.rc + 4,
          Ev.read REG_RESP0 0xA0 :: Ev.read REG_RINTSTS 0x4 :: Ev.read REG_RINTSTS 0x4 ::
          Ev.write REG_CMD 0x80000077 :: Ev.write REG_CMDARG 0 ::
          Ev.write REG_RINTSTS 0xFFFF :: Ev.read REG_CMD 0 :: s.ev⟩) := by
  have h1 : (4 : Nat) &&& 256 = 0 := by decide
  have h2 : (4 : Nat) &&& 2 = 0 := by decide
  have h3 : (4 : Nat) &&& 64 = 0 := by decide
  simp [send_cmd, send_cmd_pre, send_cmd_post, resp_phase, wait_for_cmd_line,
    wait_for_cmd_done, wait_for, poll_reg, rd, wr, envClean, app_cmd, Command.to_cmd,
    fl1, REG_CMD, REG_RINTSTS, REG_RESP0, REG_RESP1, REG_RESP2, REG_RESP3, REG_CMDARG,
    REG_STATUS, REG_CTRL, CmdMask.start_cmd, InterruptMask.cmd, InterruptMask.all,
    InterruptMask.rto, InterruptMask.re, InterruptMask.rcrc, h1, h2, h3]

/-- Under envClean, send_cmd of send-op-condition succeeds with the
short response 0xA0 after four reads. -/
theorem send_op_cond_clean (s : St) :
    send_cmd envClean fl1 (sd_send_op_cond true true) s =
      (.ok (.R48 0xA0),
        ⟨s.rc + 4,
          Ev.read REG_RESP0 0xA0 :: Ev.read REG_RINTSTS 0x4 :: Ev.read REG_RINTSTS 0x4 ::
          Ev.write REG_CMD 0x80000069 :: Ev.write REG_CMDARG 0x41FF8000 ::
          Ev.write REG_RINTSTS 0xFFFF :: Ev.read REG_CMD 0 :: s.ev⟩) := by
  have h1 : (4 : Nat) &&& 256 = 0 := by decide
  have h2 : (4 : Nat) &&& 2 = 0 := by decide
  have h3 : (4 : Nat) &&& 64 = 0 := by decide
  simp [send_cmd, send_cmd_pre, send_cmd_post, resp_phase, wait_for_cmd_line,
    wait_for_cmd_done, wait_for, poll_reg, rd, wr, envClean, sd_send_op_cond,
    Command.to_cmd, fl1, REG_CMD, REG_RINTSTS, REG_RESP0, REG_RESP1, REG_RESP2,
    REG_RESP3, REG_CMDARG, REG_STATUS, REG_CTRL, CmdMask.start_cmd, InterruptMask.cmd,
    InterruptMask.all, InterruptMask.rto, InterruptMask.re, InterruptMask.rcrc,
    h1, h2, h3]

/-- One iteration of the op-condition busy-poll loop under envClean:
both sends succeed, the OCR reads busy, and the loop repeats from the
state extended by the fourteen accesses of the two commands. -/
theorem check_v18_iter_clean_succ (n : Nat) (s : St) :
    check_v18_iter envClean fl1 (n + 1) s =
      check_v18_iter envClean fl1 n
        ⟨s.rc + 8,
          Ev.read REG_RESP0 0xA0 :: Ev.read REG_RINTSTS 0x4 :: Ev.read REG_RINTSTS 0x4 ::
          Ev.write REG_CMD 0x80000069 :: Ev.write REG_CMDARG 0x41FF8000 ::
          Ev.write REG_RINTSTS 0xFFFF :: Ev.read REG_CMD 0 ::
          Ev.read REG_RESP0 0xA0 :: Ev.read REG_RINTSTS 0x4 :: Ev.read REG_RINTSTS 0x4 ::
          Ev.write REG_CMD 0x80000077 :: Ev.write REG_CMDARG 0 ::
          Ev.write REG_RINTSTS 0xFFFF :: Ev.read REG_CMD 0 :: s.ev⟩ := by
  have hb : (Response.R48 0xA0).ocr.is_busy = true := by decide
  conv_lhs => unfold check_v18_iter
  rw [send_app_cmd_clean]
  simp only []
  rw [send_op_cond_clean]
  simp only [hb, if_true, Nat.add_assoc]

/-- Under envClean the OCR stays busy forever, so no iterate of the
op-condition busy-poll loop exits. -/
theorem check_v18_iter_clean_none (n : Nat) :
    ∀ s, check_v18_iter envClean fl1 n s = none := by
  induction n with
  | zero => intro s; rfl
  | succ n ih =>
    intro s
    rw [check_v18_iter_clean_succ]
    exact ih _

/-- A controller whose raw interrupt status always shows only the
hardware-locked-error bit. -/
def envHle : Env := fun _ off => if off = REG_RINTSTS then InterruptMask.hle else 0

/-- One iteration of the stop-transmission reissue loop under envHle:
the command line is free, the command is reissued, and the
hardware-locked bit keeps the loop going from the state extended by the
five accesses of the iteration. -/
theorem stop_loop_iter_hle_succ (n : Nat) (s : St) :
    stop_loop_iter envHle fl1 stop_transmission (n + 1) s =
      stop_loop_iter envHle fl1 stop_transmission n
        ⟨s.rc + 2,
          Ev.read REG_RINTSTS 0x1000 :: Ev.write REG_CMD 0x8000004C ::
          Ev.write REG_CMDARG 0 :: Ev.write REG_RINTSTS 0xFFFF ::
          Ev.read REG_CMD 0 :: s.ev⟩ := by
  have h1 : ((0x1000 : Nat) &&& 0x1000 == 0) = false := by decide
  conv_lhs => unfold stop_loop_iter
  simp [wait_for_cmd_line, wait_for, poll_reg, rd, wr, envHle, stop_transmission,
    Command.to_cmd, fl1, REG_CMD, REG_RINTSTS, REG_CMDARG, REG_STATUS, REG_CTRL,
    CmdMask.start_cmd, InterruptMask.hle, InterruptMask.all, h1, Nat.add_assoc]

/-- Under envHle the hardware-locked bit never clears, so no iterate of
the stop-transmission reissue loop exits. -/
theorem stop_loop_iter_hle_none (n : Nat) :
    ∀ s, stop_loop_iter envHle fl1 stop_transmission n s = none := by
  induction n with
  | zero => intro s; rfl
  | succ n ih =>
    intro s
    rw [stop_loop_iter_hle_succ]
    exact ih _

/-- C3 as stated is false: the op-condition busy-poll loop of
check_v18_sdhc has no timeout budget — under a controller that accepts
every command but reports the OCR busy forever, no iterate of the loop
ever exits, so the operation spins forever. -/
theorem C3_v18_loop_diverges_counterexample : check_v18_diverges envClean fl1 st0 :=
  fun n => check_v18_iter_clean_none n st0

/-- The all-zero controller: every register always reads zero. -/
def envZero : Env := fun _ _ => 0

/-- C3 amended: every wait built on the shared bounded-wait primitive
has an explicit budget whose expiry is returned as an error — wait_for
returns false at once on an exhausted countdown, wait_for_cmd_line then
surfaces Timeout::WaitCmdLine, and both transfer loops surface
DataTransferTimeout when their countdown expires — but the op-condition
busy-poll loop of check_v18_sdhc and the reissue loop of
stop_transmission_ops have no timeout budget of their own and spin
forever when the controller never reports the awaited condition. -/
theorem C3_bounded_waits_but_unbounded_loops :
    (∀ (p : St → Bool × St) (s : St), wait_for p 0 s = (false, s)) ∧
    (∀ (env : Env) (s : St), wait_for_cmd_line env 0 s = (.error .waitCmdLine, s)) ∧
    (∀ (blk blk_sz dfuel offset : Nat) (buf : Array Nat) (s : St),
      read_loop envZero (blk * blk_sz) dfuel 0 buf offset s =
        some (.error .dataTransferTimeout, buf, offset,
          ⟨s.rc + 1, Ev.read REG_RINTSTS 0 :: s.ev⟩)) ∧
    (∀ (blk blk_sz : Nat) (buf : Array Nat) (s : St),
      write_loop envZero buf blk blk_sz 0 s =
        some (.error .dataTransferTimeout, ⟨s.rc + 1, Ev.read REG_RINTSTS 0 :: s.ev⟩)) ∧
    stop_loop_diverges envHle fl1 stop_transmission st0 := by
  refine ⟨?_, ?_, ?_, ?_, fun n => stop_loop_iter_hle_none n st0⟩
  · intro p s; rfl
  · intro env s; rfl
  · intro blk blk_sz dfuel offset buf s
    unfold read_loop
    simp only [rd]
    rw [if_neg (fun hc => hc.2 (by simp [envZero])), interrupt_check_ok _ (by simp [envZero])]
    simp [envZero]
  · intro blk blk_sz buf s
    unfold write_loop
    simp only [rd]
    rw [if_neg (not_not_intro (by simp [envZero])), interrupt_check_ok _ (by simp [envZero])]
    simp [envZero]

/-! ### C6 -/

/-- C6: whenever the command transport or the transfer engine fails
inside read_block or write_block, the stop-transmission recovery runs
next, and the final result is the generic I/O error when the recovery
succeeds but the recovery's own error, converted, when it fails —
never the I/O error in that case. -/
theorem C6_stop_recovery_on_error (env : Env) (fl : Fuel) (lba : Nat) (buf : Array Nat)
    (s : St) :
    (∀ e s1, send_cmd env fl (read_single_block lba) s = (.error e, s1) →
      read_block env fl lba buf s =
        (match stop_transmission_ops env fl s1 with
         | none => none
         | some (.error e2, s2) => some (.error (.card e2), buf, s2)
         | some (.ok (), s2) => some (.error .ioError, buf, s2))) ∧
    (∀ resp s1 e buf2 s2, send_cmd env fl (read_single_block lba) s = (.ok resp, s1) →
      read_data env fl buf (buf.size / 512) 512 s1 = some (.error e, buf2, s2) →
      read_block env fl lba buf s =
        (match stop_transmission_ops env fl s2 with
         | none => none
         | some (.error e2, s3) => some (.error (.card e2), buf2, s3)
         | some (.ok (), s3) => some (.error .ioError, buf2, s3))) ∧
    (∀ e s1, send_cmd env fl (write_single_block lba) s = (.error e, s1) →
      write_block env fl lba buf s =
        (match stop_transmission_ops env fl s1 with
         | none => none
         | some (.error e2, s2) => some (.error (.card e2), s2)
         | some (.ok (), s2) => some (.error .ioError, s2))) ∧
    (∀ resp s1 e s2, send_cmd env fl (write_single_block lba) s = (.ok resp, s1) →
      write_data env fl buf (buf.size / 512) 512 s1 = some (.error e, s2) →
      write_block env fl lba buf s =
        (match stop_transmission_ops env fl s2 with
         | none => none
         | some (.error e2, s3) => some (.error (.card e2), s3)
         | some (.ok (), s3) => some (.error .ioError, s3))) := by
  refine ⟨?_, ?_, ?_, ?_⟩
  · intro e s1 hsend
    unfold read_block
    rw [hsend]
  · intro resp s1 e buf2 s2 hsend hdata
    unfold read_block
    rw [hsend]
    simp only
    rw [hdata]
  · intro e s1 hsend
    unfold write_block
    rw [hsend]
  · intro resp s1 e s2 hsend hdata
    unfold write_block
    rw [hsend]
    simp only
    rw [hdata]

/-- A fuel assignment that exhausts every bounded wait at once but
allows one iterate of the stop-transmission reissue loop. -/
def flStop : Fuel := ⟨0, 0, 0, 0, 0, 0, 0, 1⟩

/-- Witness for C6: when the read command fails and the
stop-transmission recovery itself fails, read_block reports the
recovery's converted error, not the generic I/O error. -/
theorem C6_stop_recovery_on_error_witness :
    read_block envZero flStop 0 (Array.mkArray 0 0) st0 =
      some (.error (.card (.timeout .waitCmdLine)), Array.mkArray 0 0, st0) :=
  (C6_stop_recovery_on_error envZero flStop 0 (Array.mkArray 0 0) st0).1
    (.timeout .waitCmdLine) st0 (by rfl)

/-! ### C5 -/

/-- The outcome and final handle of an init run, discarding the
trace. -/
def init_result (o : Option (Except DeviceError Unit × DwMmcHost × St)) :
    Option (Except DeviceError Unit × DwMmcHost) :=
  o.map fun r => (r.1, r.2.1)

/-- A controller that accepts every command cleanly (pattern 0xAA on the
voltage check) until read number 11, from which the response-timeout bit
appears: the voltage check succeeds and the first op-condition send
fails. -/
def envInitFail : Env := fun rc off =>
  if off = REG_RINTSTS then
    (if rc ≤ 10 then InterruptMask.cmd else InterruptMask.cmd ||| InterruptMask.rto)
  else if off = REG_RESP0 then 0x1AA
  else 0

/-- C5 as stated is false in its no-partial-state part: when the
voltage check succeeds and the op-condition poll then fails, init
returns the failing step's error but the handle retains the freshly
decoded interface-condition value — the cached cic differs from its
value before init. -/
theorem C5_partial_state_counterexample :
    init_result (init envInitFail fl1 DwMmcHost.new st0) =
      some (.error (.card (.interrupt .responseTimeout)),
        ⟨Rca.new, Ocr.new, ⟨0x1AA⟩, Cid.new, Csd.new, 0⟩) ∧
    (⟨0x1AA⟩ : Cic) ≠ DwMmcHost.new.cic := by
  constructor
  · rfl
  · decide

/-- C5 amended: the enumeration sequence is strictly ordered (voltage
check before op-condition polling before CID before RCA before CSD
before card selection) and a failure at any of these steps surfaces
that step's specific error with no later step executing — the returned
state is exactly the failing step's state — but the handle keeps the
values decoded by the steps that succeeded before the failing one (only
those): an idle or voltage-check failure leaves every cached field
unchanged, an op-condition failure retains exactly the new cic, a CID
failure additionally the new ocr, an RCA failure additionally the new
cid, a CSD failure additionally the new rca, and a card-selection
failure additionally the new csd. -/
theorem C5_enum_order_and_prefix_state (env : Env) (fl : Fuel) (h : DwMmcHost) (s : St) :
    (∀ e s1, send_cmd env fl idle s = (.error e, s1) →
      init_enum env fl h s = some (.error (.card e), h, s1)) ∧
    (∀ r s1 e s2, send_cmd env fl idle s = (.ok r, s1) →
      check_version env fl s1 = (.error e, s2) →
      init_enum env fl h s = some (.error (.card e), h, s2)) ∧
    (∀ r s1 cic s2 e s3, send_cmd env fl idle s = (.ok r, s1) →
      check_version env fl s1 = (.ok cic, s2) →
      check_v18_sdhc env fl s2 = some (.error e, s3) →
      init_enum env fl h s = some (.error (.card e), { h with cic := cic }, s3)) ∧
    (∀ r s1 cic s2 ocr s3 e s4, send_cmd env fl idle s = (.ok r, s1) →
      check_version env fl s1 = (.ok cic, s2) →
      check_v18_sdhc env fl s2 = some (.ok ocr, s3) →
      check_cid env fl s3 = (.error e, s4) →
      init_enum env fl h s =
        some (.error (.card e), { h with cic := cic, ocr := ocr }, s4)) ∧
    (∀ r s1 cic s2 ocr s3 cid s4 e s5, send_cmd env fl idle s = (.ok r, s1) →
      check_version env fl s1 = (.ok cic, s2) →
      check_v18_sdhc env fl s2 = some (.ok ocr, s3) →
      check_cid env fl s3 = (.ok cid, s4) →
      check_rca env fl s4 = (.error e, s5) →
      init_enum env fl h s =
        some (.error (.card e), { h with cic := cic, ocr := ocr, cid := cid }, s5)) ∧
    (∀ r s1 cic s2 ocr s3 cid s4 rca s5 e s6, send_cmd env fl idle s = (.ok r, s1) →
      check_version env fl s1 = (.ok cic, s2) →
      check_v18_sdhc env fl s2 = some (.ok ocr, s3) →
      check_cid env fl s3 = (.ok cid, s4) →
      check_rca env fl s4 = (.ok rca, s5) →
      check_csd env fl rca s5 = (.error e, s6) →
      init_enum env fl h s =
        some (.error (.card e),
          { h with cic := cic, ocr := ocr, cid := cid, rca := rca }, s6)) ∧
    (∀ r s1 cic s2 ocr s3 cid s4 rca s5 csd s6 e s7, send_cmd env fl idle s = (.ok r, s1) →
      check_version env fl s1 = (.ok cic, s2) →
      check_v18_sdhc env fl s2 = some (.ok ocr, s3) →
      check_cid env fl s3 = (.ok cid, s4) →
      check_rca env fl s4 = (.ok rca, s5) →
      check_csd env fl rca s5 = (.ok csd, s6) →
      sel_card env fl rca s6 = (.error e, s7) →
      init_enum env fl h s =
        some (.error (.card e),
          { h with cic := cic, ocr := ocr, cid := cid, rca := rca, csd := csd }, s7)) := by
  refine ⟨?_, ?_, ?_, ?_, ?_, ?_, ?_⟩
  · intro e s1 hidle
    unfold init_enum
    rw [hidle]
  · intro r s1 e s2 hidle hver
    unfold init_enum
    rw [hidle]
    simp only []
    rw [hver]
  · intro r s1 cic s2 e s3 hidle hver hv18
    unfold init_enum
    rw [hidle]
    simp only []
    rw [hver]
    simp only []
    rw [hv18]
  · intro r s1 cic s2 ocr s3 e s4 hidle hver hv18 hcid
    unfold init_enum
    rw [hidle]
    simp only []
    rw [hver]
    simp only []
    rw [hv18]
    simp only []
    rw [hcid]
  · intro r s1 cic s2 ocr s3 cid s4 e s5 hidle hver hv18 hcid hrca
    unfold init_enum
    rw [hidle]
    simp only []
    rw [hver]
    simp only []
    rw [hv18]
    simp only []
    rw [hcid]
    simp only []
    rw [hrca]
  · intro r s1 cic s2 ocr s3 cid s4 rca s5 e s6 hidle hver hv18 hcid hrca hcsd
    unfold init_enum
    rw [hidle]
    simp only []
    rw [hver]
    simp only []
    rw [hv18]
    simp only []
    rw [hcid]
    simp only []
    rw [hrca]
    simp only []
    rw [hcsd]
  · intro r s1 cic s2 ocr s3 cid s4 rca s5 csd s6 e s7 hidle hver hv18 hcid hrca hcsd hsel
    unfold init_enum
    rw [hidle]
    simp only []
    rw [hver]
    simp only []
    rw [hv18]
    simp only []
    rw [hcid]
    simp only []
    rw [hrca]
    simp only []
    rw [hcsd]
    simp only []
    rw [hsel]

/-- A controller whose voltage-check response carries pattern 0x55
instead of 0xAA. -/
def envBadPattern : Env := fun _ off =>
  if off = REG_RINTSTS then InterruptMask.cmd
  else if off = REG_RESP0 then 0x155
  else 0

/-- A controller that runs the whole enumeration cleanly (pattern 0xAA,
OCR immediately not-busy) until the card-selection command, whose
status read then carries the response-timeout bit. -/
def envSelFail : Env := fun rc off =>
  if off = REG_RINTSTS then
    (if rc = 34 then InterruptMask.cmd ||| InterruptMask.rto else InterruptMask.cmd)
  else if off = REG_RESP0 then
    (if rc = 5 then 0x1AA else if rc = 13 then 0x80000000 else 0)
  else 0

/-- Witness for the amended C5, at both ends of the sequence: with the
check pattern wrong, the enumeration stops at the voltage check with
VoltagePattern and the handle entirely unchanged; and with every step
up to CSD succeeding and card selection failing, the enumeration stops
there with the selection step's error and the handle holding exactly
the values decoded by the completed steps. -/
theorem C5_enum_order_and_prefix_state_witness :
    init_enum envBadPattern fl1 DwMmcHost.new st0 =
      some (.error (.card .voltagePattern), DwMmcHost.new,
        ⟨6, [Ev.read REG_RESP0 0x155, Ev.read REG_RINTSTS 0x4, Ev.read REG_RINTSTS 0x4,
          Ev.write REG_CMD 0x80000048, Ev.write REG_CMDARG 0x1AA,
          Ev.write REG_RINTSTS 0xFFFF, Ev.read REG_CMD 0,
          Ev.read REG_RINTSTS 0x4, Ev.write REG_CMD 0x80000000,
          Ev.write REG_CMDARG 0, Ev.write REG_RINTSTS 0xFFFF,
          Ev.read REG_CMD 0]⟩) ∧
    init_result (init_enum envSelFail fl1 DwMmcHost.new st0) =
      some (.error (.card (.interrupt .responseTimeout)),
        ⟨⟨0⟩, ⟨0x80000000⟩, ⟨0x1AA⟩, ⟨(0, 0, 0, 0)⟩, ⟨(0, 0, 0, 0)⟩, 0⟩) := by
  constructor
  · exact (C5_enum_order_and_prefix_state envBadPattern fl1 DwMmcHost.new st0).2.1
      .Rz
      ⟨2, [Ev.read REG_RINTSTS 0x4, Ev.write REG_CMD 0x80000000, Ev.write REG_CMDARG 0,
        Ev.write REG_RINTSTS 0xFFFF, Ev.read REG_CMD 0]⟩
      .voltagePattern
      ⟨6, [Ev.read REG_RESP0 0x155, Ev.read REG_RINTSTS 0x4, Ev.read REG_RINTSTS 0x4,
        Ev.write REG_CMD 0x80000048, Ev.write REG_CMDARG 0x1AA,
        Ev.write REG_RINTSTS 0xFFFF, Ev.read REG_CMD 0,
        Ev.read REG_RINTSTS 0x4, Ev.write REG_CMD 0x80000000,
        Ev.write REG_CMDARG 0, Ev.write REG_RINTSTS 0xFFFF,
        Ev.read REG_CMD 0]⟩
      (by rfl) (by rfl)
  · have h := (C5_enum_order_and_prefix_state envSelFail fl1 DwMmcHost.new st0).2.2.2.2.2.2
      _ _ _ _ _ _ _ _ _ _ _ _ _ _
      (by rfl) (by rfl) (by rfl) (by rfl) (by rfl) (by rfl) (by rfl)
    rw [h]
    rfl

end Sdio
